import Mathlib

/-!
Verification development for the protein-tracking app's food-resolution
pipeline.  Python sources are shallowly embedded: Python `float` arithmetic
is modelled over `ℚ` (the quantities involved are small decimal constants,
and every claim checked here is stated with tolerances far above any binary
rounding error), Python dicts are modelled as ordered association lists with
last-binding-wins lookup and first-occurrence key order, and `round(x, 1)`
is modelled as rounding to the nearest tenth.
-/

namespace ProteinTrack

/-- Contiguous-sublist test on character lists. -/
def charsIn (needle : List Char) : List Char → Bool
  | [] => needle.isEmpty
  | c :: rest => needle.isPrefixOf (c :: rest) || charsIn needle rest

/-- Python `needle in hay` on strings: contiguous-substring test. -/
def strIn (needle hay : String) : Bool :=
  charsIn needle.toList hay.toList

/-- Python `s.lower()` (ASCII data only in this code base). -/
def pyLower (s : String) : String :=
  String.mk (s.data.map Char.toLower)

/-- Python `s.strip()`: remove leading and trailing whitespace. -/
def pyStrip (s : String) : String :=
  String.mk ((((s.data.dropWhile Char.isWhitespace).reverse).dropWhile
    Char.isWhitespace).reverse)

/-- Accumulator-based whitespace splitting for `pySplit`. -/
def pySplitAux : List Char → List Char → List String
  | [], cur => if cur.isEmpty then [] else [String.mk cur.reverse]
  | c :: rest, cur =>
    if c.isWhitespace then
      if cur.isEmpty then pySplitAux rest []
      else String.mk cur.reverse :: pySplitAux rest []
    else pySplitAux rest (c :: cur)

/-- Python `s.split()` with no argument: split on whitespace runs, dropping
empty fragments. -/
def pySplit (s : String) : List String :=
  pySplitAux s.data []

/-- Python dict lookup on an association list built from a dict literal:
the *last* binding of a key wins. -/
def pyLookup (l : List (String × α)) (k : String) : Option α :=
  l.foldl (fun acc p => if p.1 = k then some p.2 else acc) none

/-- Python `d.get(k, default)`. -/
def pyLookupD (l : List (String × α)) (k : String) (d : α) : α :=
  (pyLookup l k).getD d

/-- Python `k in d`. -/
def pyHasKey (l : List (String × α)) (k : String) : Bool :=
  l.any (fun p => p.1 = k)

/-- Python `d.keys()` iteration order: first occurrence of each key. -/
def pyKeys (l : List (String × α)) : List String :=
  l.foldl (fun acc p => if acc.contains p.1 then acc else acc ++ [p.1]) []

/-- Append an element unless already present (the ubiquitous
`if x not in xs: xs.append(x)` idiom). -/
def addNew (xs : List String) (x : String) : List String :=
  if xs.contains x then xs else xs ++ [x]

/-- `addNew` folded over a list of new elements. -/
def addNewAll (xs : List String) (news : List String) : List String :=
  news.foldl addNew xs

/-- Order-preserving deduplication keeping first occurrences. -/
def dedupFirst (xs : List String) : List String :=
  xs.foldl addNew []

/-- Python `max(xs, key=f)`: first maximal element (empty list never occurs
at call sites; `""` stands for the unreachable case). -/
def pyMaxBy (xs : List String) (f : String → ℚ) : String :=
  match xs with
  | [] => ""
  | x :: rest => rest.foldl (fun b y => if f y > f b then y else b) x

/-- Python `round(x, 1)`: round to the nearest tenth.  (Python uses
round-half-even on binary floats; the two conventions agree away from exact
`.x5` ties, and every identity proved below applies the same rounding on
both sides.) -/
def round1 (q : ℚ) : ℚ :=
  (round (q * 10) : ℤ) / 10

/-! ## `main.py`: nutrition tables -/

/-- `PROTEIN_DATABASE` of `main.py` (protein g per 100 g). -/
def mainProteinDB : List (String × ℚ) := [
  ("chicken", 21.7), ("chicken breast", 21.7), ("chicken thigh", 19.6), ("chicken wing", 21.0),
  ("beef", 18.2), ("steak", 18.2), ("ground beef", 18.2), ("beef burger", 18.2), ("burger", 18.2),
  ("pork", 17.5), ("pork chop", 17.5), ("bacon", 25.9), ("ham", 15.4), ("sausage", 12.6),
  ("salmon", 14.0), ("tuna", 21.0), ("cod", 12.6), ("tilapia", 18.2), ("fish", 14.0),
  ("turkey", 20.3), ("duck", 16.1), ("lamb", 17.5), ("shrimp", 16.8), ("prawns", 16.8),
  ("egg", 9.1), ("eggs", 9.1), ("milk", 2.4), ("cheese", 17.5), ("cheddar", 17.5),
  ("yogurt", 7.0), ("greek yogurt", 7.0), ("cottage cheese", 7.7), ("cream cheese", 4.2),
  ("peanut butter", 17.5), ("almonds", 14.7), ("walnuts", 10.5), ("cashews", 12.6),
  ("sunflower seeds", 14.7), ("chia seeds", 11.9), ("pumpkin seeds", 13.3),
  ("tofu", 5.6), ("tempeh", 14.0), ("lentils", 6.3), ("beans", 6.3), ("black beans", 6.3),
  ("kidney beans", 6.3), ("chickpeas", 6.3), ("edamame", 7.7), ("hummus", 5.6),
  ("seitan", 17.5),
  ("pea protein", 17.5),
  ("spirulina", 39.9),
  ("nutritional yeast", 35.0),
  ("quinoa", 9.8), ("rice", 1.9), ("brown rice", 1.9), ("bread", 6.3), ("whole wheat bread", 9.1),
  ("pasta", 3.9), ("spaghetti", 3.9), ("oatmeal", 4.2), ("oats", 4.2), ("cereal", 7.0),
  ("broccoli", 2.8), ("spinach", 2.9), ("kale", 4.3), ("asparagus", 2.2), ("brussels sprouts", 3.4),
  ("cauliflower", 1.9), ("peas", 5.4), ("corn", 3.2), ("potato", 2.0), ("sweet potato", 1.6),
  ("pizza", 10.0), ("pizza slice", 10.0), ("hamburger", 18.0), ("hot dog", 12.0),
  ("sandwich", 12.0), ("wrap", 12.0), ("taco", 12.0), ("burrito", 15.0),
  ("noodles", 5.5), ("ramen", 5.5), ("soup", 2.0), ("salad", 2.0),
  ("pancakes", 6.0), ("waffles", 6.0), ("french toast", 8.0), ("bagel", 10.0),
  ("muffin", 5.0), ("croissant", 8.0), ("english muffin", 8.0),
  ("protein bar", 20.0), ("protein shake", 7.0), ("smoothie", 2.0),
  ("ice cream", 4.0), ("chocolate", 5.0), ("cookies", 5.0), ("cake", 4.0)]

/-- `CALORIE_DATABASE` of `main.py` (kcal per 100 g). -/
def mainCalorieDB : List (String × ℚ) := [
  ("chicken", 165), ("chicken breast", 165), ("chicken thigh", 209), ("chicken wing", 290),
  ("beef", 250), ("steak", 250), ("ground beef", 250), ("beef burger", 250), ("burger", 250),
  ("pork", 242), ("pork chop", 242), ("bacon", 541), ("ham", 145), ("sausage", 296),
  ("salmon", 208), ("tuna", 144), ("cod", 105), ("tilapia", 96), ("fish", 208),
  ("turkey", 189), ("duck", 337), ("lamb", 294), ("shrimp", 99), ("prawns", 99),
  ("egg", 155), ("eggs", 155), ("milk", 42), ("cheese", 402), ("cheddar", 402),
  ("yogurt", 59), ("greek yogurt", 59), ("cottage cheese", 98), ("cream cheese", 342),
  ("peanut butter", 588), ("almonds", 579), ("walnuts", 654), ("cashews", 553),
  ("sunflower seeds", 584), ("chia seeds", 486), ("pumpkin seeds", 559),
  ("tofu", 76), ("tempeh", 192), ("lentils", 116), ("beans", 116), ("black beans", 116),
  ("kidney beans", 116), ("chickpeas", 164), ("edamame", 121), ("hummus", 166),
  ("seitan", 370),
  ("pea protein", 350),
  ("spirulina", 290),
  ("nutritional yeast", 325),
  ("quinoa", 120), ("rice", 130), ("brown rice", 111), ("bread", 265), ("whole wheat bread", 247),
  ("pasta", 158), ("spaghetti", 158), ("oatmeal", 68), ("oats", 68), ("cereal", 378),
  ("broccoli", 34), ("spinach", 23), ("kale", 49), ("asparagus", 20), ("brussels sprouts", 43),
  ("cauliflower", 25), ("peas", 84), ("corn", 86), ("potato", 77), ("sweet potato", 86),
  ("pizza", 266), ("pizza slice", 266), ("hamburger", 295), ("hot dog", 151),
  ("sandwich", 250), ("wrap", 250), ("taco", 226), ("burrito", 300),
  ("noodles", 158), ("ramen", 158), ("soup", 35), ("salad", 25),
  ("pancakes", 227), ("waffles", 291), ("french toast", 229), ("bagel", 245),
  ("muffin", 265), ("croissant", 406), ("english muffin", 157),
  ("protein bar", 350), ("protein shake", 80), ("smoothie", 40),
  ("ice cream", 207), ("chocolate", 545), ("cookies", 502), ("cake", 257)]

/-! ## `main.py`: keyword-heuristic estimates and portion sizing -/

/-- `_estimate_protein_from_food_name` of `main.py`. -/
def estimateProteinFromFoodName (name : String) : ℚ :=
  let f := pyLower name
  if ["meat", "beef", "steak", "burger", "patty", "cutlet"].any (fun w => strIn w f) then 25.0
  else if ["chicken", "poultry", "breast", "thigh", "wing"].any (fun w => strIn w f) then 30.0
  else if ["fish", "salmon", "tuna", "cod", "seafood"].any (fun w => strIn w f) then 20.0
  else if ["pork", "bacon", "ham", "sausage"].any (fun w => strIn w f) then 25.0
  else if ["egg", "eggs"].any (fun w => strIn w f) then 13.0
  else if ["cheese", "milk", "yogurt", "cream"].any (fun w => strIn w f) then 15.0
  else if ["bread", "toast", "sandwich", "wrap"].any (fun w => strIn w f) then 9.0
  else if ["pasta", "noodles", "spaghetti", "macaroni"].any (fun w => strIn w f) then 5.5
  else if ["rice", "quinoa", "oatmeal", "cereal"].any (fun w => strIn w f) then 6.0
  else if ["pizza", "slice"].any (fun w => strIn w f) then 10.0
  else if ["salad", "vegetable", "broccoli", "spinach", "kale"].any (fun w => strIn w f) then 2.0
  else if ["nut", "seed", "almond", "peanut"].any (fun w => strIn w f) then 20.0
  else if ["burger", "hot dog", "taco", "burrito"].any (fun w => strIn w f) then 12.0
  else if ["fries", "chips", "snack"].any (fun w => strIn w f) then 5.0
  else if ["cake", "cookie", "dessert", "sweet", "chocolate"].any (fun w => strIn w f) then 4.0
  else 8.0

/-- `_estimate_calories_from_food_name` of `main.py`. -/
def estimateCaloriesFromFoodName (name : String) : ℚ :=
  let f := pyLower name
  if ["meat", "beef", "steak", "burger", "patty", "cutlet"].any (fun w => strIn w f) then 250
  else if ["chicken", "poultry", "breast", "thigh", "wing"].any (fun w => strIn w f) then 165
  else if ["fish", "salmon", "tuna", "cod", "seafood"].any (fun w => strIn w f) then 200
  else if ["pork", "bacon", "ham", "sausage"].any (fun w => strIn w f) then 250
  else if ["egg", "eggs"].any (fun w => strIn w f) then 155
  else if ["milk", "cheese", "yogurt", "cream"].any (fun w => strIn w f) then 100
  else if ["butter", "margarine"].any (fun w => strIn w f) then 717
  else if ["bread", "toast", "sandwich", "wrap"].any (fun w => strIn w f) then 265
  else if ["rice", "pasta", "noodles", "spaghetti"].any (fun w => strIn w f) then 158
  else if ["oatmeal", "oats", "cereal"].any (fun w => strIn w f) then 68
  else if ["broccoli", "spinach", "kale", "lettuce", "salad"].any (fun w => strIn w f) then 25
  else if ["carrot", "potato", "sweet potato", "corn"].any (fun w => strIn w f) then 80
  else if ["tomato", "cucumber", "pepper", "onion"].any (fun w => strIn w f) then 20
  else if ["apple", "banana", "orange", "strawberry", "berry"].any (fun w => strIn w f) then 50
  else if ["grape", "pineapple", "mango", "peach"].any (fun w => strIn w f) then 60
  else if ["nut", "almond", "walnut", "cashew", "seed"].any (fun w => strIn w f) then 600
  else if ["pizza", "burger", "hot dog", "taco", "burrito"].any (fun w => strIn w f) then 300
  else if ["fries", "chips", "crackers"].any (fun w => strIn w f) then 500
  else if ["cake", "cookie", "dessert", "sweet", "chocolate"].any (fun w => strIn w f) then 400
  else 150

/-- The per-food aggregation of `upload_meal` used when the detector supplied
portion estimates (`portions_g` path): per-100g values from the tables with
keyword-heuristic fallback, times grams, summed and rounded to one decimal. -/
def uploadTotalsFromPortions (foodList : List String) (portions : List (String × ℚ)) :
    ℚ × ℚ :=
  let acc := foodList.foldl
    (fun (acc : ℚ × ℚ) f =>
      let fl := pyStrip (pyLower f)
      let grams := pyLookupD portions f 0
      let p := pyLookupD mainProteinDB fl (estimateProteinFromFoodName fl)
      let c := pyLookupD mainCalorieDB fl (estimateCaloriesFromFoodName fl)
      (acc.1 + p * grams / 100, acc.2 + c * grams / 100))
    (0, 0)
  (round1 acc.1, round1 acc.2)

/-- A cache entry: stored value plus its expiry time
(`{'value': v, 'expires_at': time.time() + ttl}`). -/
structure CacheEntry (α : Type) where
  value : α
  expires_at : ℚ
deriving DecidableEq

/-- The `OrderedDict` state of `SimpleCache`: oldest (least recently used)
first, most recently used last. -/
abbrev CacheState (α : Type) := List (String × CacheEntry α)

/-- `SimpleCache.get`: on a hit the entry is popped and re-appended (moved to
the most-recently-used end). -/
def cacheGet (c : CacheState α) (k : String) : Option (CacheEntry α) × CacheState α :=
  match c.find? (fun p => p.1 = k) with
  | some p => (some p.2, c.eraseP (fun q => q.1 = k) ++ [p])
  | none => (none, c)

/-- `SimpleCache.set`: an existing key is popped; otherwise, at capacity, the
least-recently-used entry (`popitem(last=False)`, the front) is evicted;
then the new entry is appended at the most-recently-used end. -/
def cacheSet (maxSize : ℕ) (c : CacheState α) (k : String) (v : α) (now ttl : ℚ) :
    CacheState α :=
  let c' :=
    if c.any (fun p => p.1 = k) then c.eraseP (fun p => p.1 = k)
    else if maxSize ≤ c.length then c.drop 1
    else c
  c' ++ [(k, { value := v, expires_at := now + ttl })]

/-- `SimpleCache.delete`. -/
def cacheDelete (c : CacheState α) (k : String) : CacheState α :=
  c.eraseP (fun p => p.1 = k)

/-- `SimpleCache.cleanup`: drop entries with `expires_at < current_time`. -/
def cacheCleanup (c : CacheState α) (now : ℚ) : CacheState α :=
  c.filter (fun p => ¬ p.2.expires_at < now)

/-- One `SimpleCache` operation. -/
inductive CacheOp (α : Type) where
  | get (k : String)
  | set (k : String) (v : α) (now ttl : ℚ)
  | del (k : String)
  | cleanup (now : ℚ)

/-- Effect of one operation on the cache state. -/
def cacheStep (maxSize : ℕ) (c : CacheState α) : CacheOp α → CacheState α
  | CacheOp.get k => (cacheGet c k).2
  | CacheOp.set k v now ttl => cacheSet maxSize c k v now ttl
  | CacheOp.del k => cacheDelete c k
  | CacheOp.cleanup now => cacheCleanup c now

/-- Run a sequence of operations starting from the empty cache. -/
def cacheRun (maxSize : ℕ) (ops : List (CacheOp α)) : CacheState α :=
  ops.foldl (cacheStep maxSize) []

/-! ## `food_detection.py`: the detector's protein database

Transcribed entry-for-entry from the `protein_database` dict literal of
`GoogleVisionFoodDetector.__init__` (duplicate keys included: Python dict
semantics — last binding wins, first occurrence fixes iteration order — are
recovered by `pyLookup` / `pyKeys`). -/

def fdProteinDB : List (String × ℚ) := [
  ("chicken", 35.0), ("chicken breast", 35.0), ("chicken thigh", 30.8), ("chicken wing", 33.6),
  ("chicken nuggets", 9.8), ("chicken tenders", 14.0), ("fried chicken", 14.0), ("roasted chicken", 17.5),
  ("chicken soup", 4.2), ("chicken salad", 8.4), ("chicken curry", 9.8), ("chicken marsala", 11.2),
  ("beef", 29.4), ("steak", 29.4), ("ground beef", 29.4), ("beef steak", 29.4), ("ribeye", 29.4), ("sirloin", 29.4),
  ("filet mignon", 14.7), ("t-bone", 14.7), ("porterhouse", 14.7), ("beef burger", 14.7), ("hamburger", 14.7),
  ("beef stew", 8.4), ("beef stroganoff", 9.8), ("beef tacos", 8.4), ("beef chili", 9.8),
  ("pork", 28.0), ("pork chop", 28.0), ("bacon", 42.0), ("ham", 25.2), ("pork loin", 28.0), ("pork tenderloin", 28.0),
  ("pork belly", 14.0), ("pulled pork", 14.0), ("pork ribs", 14.0), ("pork shoulder", 14.0),
  ("sausage", 19.6), ("pepperoni", 28.0), ("salami", 25.2), ("prosciutto", 30.8), ("mortadella", 25.2),
  ("chorizo", 12.6), ("kielbasa", 9.8), ("bratwurst", 8.4), ("italian sausage", 9.8),
  ("salmon", 22.4), ("tuna", 33.6), ("cod", 19.6), ("tilapia", 29.4), ("trout", 22.4), ("mackerel", 21.0),
  ("halibut", 22.4), ("sea bass", 22.4), ("red snapper", 22.4), ("grouper", 22.4), ("swordfish", 22.4),
  ("shrimp", 26.6), ("crab", 21.0), ("lobster", 22.4), ("oysters", 9.8), ("mussels", 14.0), ("clams", 14.0),
  ("scallops", 22.4), ("calamari", 19.6), ("octopus", 19.6), ("crayfish", 19.6),
  ("turkey", 32.2), ("turkey breast", 32.2), ("duck", 25.2), ("goose", 25.2), ("quail", 25.2),
  ("pheasant", 25.2), ("partridge", 25.2), ("turkey bacon", 28.0), ("turkey sausage", 19.6),
  ("lamb", 28.0), ("veal", 26.6), ("venison", 33.6), ("bison", 30.8), ("elk", 33.6), ("rabbit", 30.8),
  ("goat", 28.0), ("wild boar", 28.0), ("antelope", 33.6), ("moose", 33.6),
  ("egg", 14.0), ("eggs", 14.0), ("scrambled eggs", 14.0), ("fried eggs", 14.0), ("fried egg", 14.0), ("boiled eggs", 14.0),
  ("omelet", 14.0), ("omelette", 14.0), ("poached eggs", 14.0), ("deviled eggs", 14.0), ("yolk", 18.2),
  ("milk", 3.8), ("cheese", 28.0), ("cheddar", 28.0), ("mozzarella", 25.2), ("parmesan", 42.0),
  ("feta", 15.4), ("blue cheese", 23.8), ("swiss", 30.8), ("gouda", 28.0), ("brie", 22.4),
  ("yogurt", 11.2), ("greek yogurt", 11.2), ("cottage cheese", 12.6), ("cream cheese", 7.0),
  ("butter", 1.0), ("cream", 2.4), ("sour cream", 2.6), ("whipping cream", 2.4),
  ("tofu", 8.0), ("tempeh", 20.0), ("edamame", 11.0), ("soybeans", 36.0), ("soy milk", 3.3),
  ("lentils", 9.0), ("beans", 9.0), ("baked beans", 9.0), ("black beans", 9.0), ("kidney beans", 9.0), ("pinto beans", 9.0),
  ("navy beans", 9.0), ("lima beans", 9.0), ("cannellini beans", 9.0), ("great northern beans", 9.0), ("white beans", 9.0), ("garbanzo beans", 9.0), ("chickpeas", 9.0),
  ("hummus", 8.0), ("falafel", 8.0),
  ("split peas", 9.0), ("black eyed peas", 8.0), ("adzuki beans", 8.0), ("mung beans", 8.0),
  ("quinoa", 14.0), ("seitan", 25.0), ("spirulina", 57.0), ("nutritional yeast", 50.0),
  ("textured vegetable protein", 50.0), ("pea protein", 25.0), ("rice protein", 25.0),
  ("almonds", 21.0), ("walnuts", 15.0), ("peanuts", 26.0), ("cashews", 18.0), ("pistachios", 20.0),
  ("pecans", 9.0), ("macadamia", 8.0), ("hazelnuts", 15.0), ("brazil nuts", 14.0),
  ("chia seeds", 17.0), ("flax seeds", 18.0), ("hemp seeds", 32.0), ("sunflower seeds", 21.0),
  ("pumpkin seeds", 19.0), ("sesame seeds", 18.0), ("poppy seeds", 18.0),
  ("peanut butter", 25.0), ("almond butter", 21.0), ("cashew butter", 18.0),
  ("rice", 2.7), ("white rice", 2.7), ("brown rice", 2.7), ("wild rice", 4.0), ("jasmine rice", 2.7),
  ("bread", 8.0), ("white bread", 8.0), ("whole wheat bread", 8.0), ("sourdough", 8.0), ("bagel", 10.0),
  ("pasta", 5.0), ("spaghetti", 5.0), ("penne", 5.0), ("fettuccine", 5.0), ("lasagna", 8.0), ("linguine", 5.0), ("rigatoni", 5.0), ("ziti", 5.0), ("rotini", 5.0), ("farfalle", 5.0), ("orecchiette", 5.0), ("gnocchi", 5.0), ("ravioli", 8.0), ("tortellini", 8.0), ("manicotti", 8.0), ("cannelloni", 8.0),
  ("bolognese", 8.0), ("marinara", 3.0), ("alfredo", 6.0), ("carbonara", 12.0), ("pesto", 4.0),
  ("tomato sauce", 2.0),
  ("oats", 17.0), ("oatmeal", 17.0), ("quinoa", 4.4), ("barley", 3.5), ("wheat", 13.0),
  ("cereal", 8.0), ("granola", 10.0), ("muesli", 8.0),
  ("broccoli", 2.8), ("spinach", 2.9), ("kale", 4.3), ("peas", 5.4), ("green peas", 5.4),
  ("corn", 3.3), ("potato", 2.0), ("sweet potato", 2.0), ("carrot", 0.9), ("onion", 1.1),
  ("mushrooms", 3.1), ("asparagus", 2.2), ("brussels sprouts", 3.4), ("cauliflower", 1.9),
  ("bell pepper", 1.0), ("tomato", 0.9), ("cucumber", 0.7), ("lettuce", 1.4), ("cabbage", 1.3),
  ("zucchini", 1.2), ("eggplant", 1.0), ("squash", 1.2), ("pumpkin", 1.0),
  ("artichoke", 3.3), ("beets", 1.6), ("celery", 0.7), ("garlic", 6.4), ("ginger", 1.8),
  ("leek", 1.5), ("parsnip", 1.2), ("radish", 0.9), ("rutabaga", 1.2), ("turnip", 0.9),
  ("bok choy", 1.5), ("napa cabbage", 1.2), ("watercress", 2.3), ("arugula", 2.6),
  ("collard greens", 3.6), ("mustard greens", 2.9), ("swiss chard", 1.8),
  ("okra", 2.0), ("jicama", 0.7), ("kohlrabi", 1.7), ("fennel", 1.2), ("endive", 1.3),
  ("escarole", 1.2), ("radicchio", 1.4), ("chicory", 1.4), ("dandelion greens", 2.7),
  ("apple", 0.3), ("banana", 1.1), ("orange", 0.9), ("strawberry", 0.7), ("blueberry", 0.7),
  ("raspberry", 1.2), ("blackberry", 1.4), ("grape", 0.6), ("pineapple", 0.5), ("mango", 0.8),
  ("avocado", 2.0), ("tomato", 0.9), ("lemon", 1.1), ("lime", 0.7), ("grapefruit", 0.8),
  ("peach", 0.9), ("pear", 0.4), ("plum", 0.7), ("cherry", 1.1), ("watermelon", 0.6),
  ("pizza", 12.0), ("hamburger", 26.0), ("hot dog", 12.0), ("sandwich", 15.0), ("sub", 15.0),
  ("taco", 12.0), ("burrito", 15.0), ("quesadilla", 18.0), ("enchilada", 12.0), ("fajita", 15.0), ("shawarma", 18.0), ("gyro", 18.0), ("kebab", 18.0), ("wrap", 12.0), ("pita", 8.0), ("tortilla", 8.0), ("flatbread", 8.0), ("naan", 8.0), ("roti", 8.0), ("chapati", 8.0),
  ("sushi", 8.0), ("sashimi", 20.0), ("ramen", 8.0),
  ("pasta", 5.0), ("spaghetti", 5.0), ("lasagna", 8.0), ("mac and cheese", 12.0), ("penne", 5.0),
  ("bean stew", 12.0), ("vegetable stew", 8.0), ("meat stew", 15.0), ("chili", 15.0), ("casserole", 12.0), ("goulash", 12.0),
  ("salad", 8.0), ("caesar salad", 12.0), ("greek salad", 10.0), ("cobb salad", 15.0),
  ("steak", 26.0), ("grilled chicken", 31.0), ("fried chicken", 25.0), ("fish and chips", 15.0),
  ("meatballs", 18.0), ("meatloaf", 18.0), ("roast beef", 26.0), ("pulled pork", 25.0),
  ("barbecue", 20.0), ("bbq", 20.0), ("kebab", 18.0), ("gyro", 18.0), ("shawarma", 18.0),
  ("dumplings", 8.0), ("spring rolls", 6.0), ("egg rolls", 8.0), ("wonton", 8.0), ("potstickers", 8.0),
  ("noodles", 5.0), ("rice", 2.7), ("fried rice", 6.0), ("risotto", 6.0), ("paella", 12.0),
  ("omelet", 13.0), ("scrambled eggs", 13.0), ("frittata", 12.0), ("quiche", 12.0),
  ("pancakes", 6.0), ("waffles", 6.0), ("french toast", 8.0), ("cereal", 8.0),
  ("oatmeal", 17.0), ("granola", 10.0), ("yogurt", 10.0), ("smoothie", 8.0),
  ("pad thai", 8.0), ("pho", 8.0), ("bibimbap", 12.0), ("bulgogi", 20.0), ("japchae", 8.0),
  ("miso soup", 6.0), ("tempura", 8.0), ("teriyaki", 18.0), ("sukiyaki", 15.0),
  ("dim sum", 8.0), ("kung pao", 15.0), ("sweet and sour", 8.0), ("general tso", 15.0),
  ("butter chicken", 18.0), ("tikka masala", 15.0), ("biryani", 12.0), ("naan", 8.0),
  ("falafel", 8.0), ("hummus", 8.0), ("tabbouleh", 6.0), ("baba ganoush", 4.0),
  ("paella", 12.0), ("tapas", 10.0), ("gazpacho", 4.0), ("ratatouille", 6.0),
  ("coq au vin", 20.0), ("beef bourguignon", 20.0), ("cassoulet", 15.0),
  ("schnitzel", 18.0), ("bratwurst", 15.0), ("sauerbraten", 20.0),
  ("borscht", 8.0), ("pelmeni", 12.0), ("goulash", 12.0), ("paprikash", 15.0),
  ("moussaka", 12.0), ("souvlaki", 18.0), ("dolmades", 8.0), ("spanakopita", 8.0),
  ("feijoada", 15.0), ("moqueca", 12.0), ("churrasco", 25.0), ("empanada", 8.0),
  ("ceviche", 15.0), ("arepa", 8.0), ("tamale", 8.0), ("pozole", 12.0),
  ("chips", 6.0), ("popcorn", 11.0), ("pretzels", 10.0), ("crackers", 8.0), ("nuts", 20.0),
  ("trail mix", 15.0), ("protein bar", 20.0), ("energy bar", 8.0), ("granola bar", 8.0),
  ("ice cream", 4.0), ("yogurt", 10.0), ("pudding", 3.0), ("jello", 2.0),
  ("milk", 3.4), ("soy milk", 3.3), ("almond milk", 1.0), ("oat milk", 1.0), ("protein shake", 25.0),
  ("smoothie", 8.0), ("juice", 0.5), ("coffee", 0.1), ("tea", 0.0),
  ("ketchup", 1.0), ("mustard", 4.0), ("mayonnaise", 1.0), ("hot sauce", 0.5), ("soy sauce", 8.0),
  ("teriyaki", 8.0), ("barbecue sauce", 1.0), ("ranch", 1.0), ("italian dressing", 1.0),
  ("cake", 5.0), ("cookie", 5.0), ("brownie", 4.0), ("pie", 4.0), ("cheesecake", 6.0),
  ("chocolate", 4.0), ("candy", 1.0), ("gum", 0.0),
  ("toast", 8.0), ("english muffin", 8.0), ("croissant", 8.0), ("danish", 6.0),
  ("muffin", 6.0), ("donut", 4.0), ("cookie", 5.0), ("brownie", 4.0),
  ("ice cream", 4.0), ("yogurt", 10.0), ("pudding", 3.0), ("jello", 2.0),
  ("chocolate", 4.0), ("candy", 1.0), ("gum", 0.0),
  ("coffee", 0.1), ("tea", 0.0), ("juice", 0.5), ("soda", 0.0),
  ("beer", 0.5), ("wine", 0.1), ("liquor", 0.0),
  ("ketchup", 1.0), ("mustard", 4.0), ("mayonnaise", 1.0), ("hot sauce", 0.5),
  ("soy sauce", 8.0), ("teriyaki", 8.0), ("barbecue sauce", 1.0),
  ("ranch", 1.0), ("italian dressing", 1.0), ("vinaigrette", 1.0),
  ("olive oil", 0.0), ("vegetable oil", 0.0), ("butter", 0.9),
  ("margarine", 0.2), ("shortening", 0.0), ("lard", 0.0),
  ("sugar", 0.0), ("honey", 0.3), ("maple syrup", 0.0), ("agave", 0.0),
  ("salt", 0.0), ("pepper", 10.0), ("garlic powder", 16.0), ("onion powder", 10.0),
  ("oregano", 9.0), ("basil", 22.0), ("thyme", 6.0), ("rosemary", 3.0),
  ("cumin", 18.0), ("coriander", 12.0), ("turmeric", 8.0), ("ginger", 1.8),
  ("cinnamon", 4.0), ("nutmeg", 6.0), ("cloves", 6.0), ("allspice", 6.0),
  ("vanilla", 0.1), ("almond extract", 0.0), ("lemon extract", 0.0),
  ("food coloring", 0.0), ("preservatives", 0.0), ("additives", 0.0),
  ("pasul", 21.0),
  ("english breakfast", 25.0),
  ("full english", 25.0), ("fry up", 25.0), ("breakfast", 15.0),
  ("continental breakfast", 8.0), ("american breakfast", 15.0),
  ("breakfast sandwich", 15.0), ("breakfast burrito", 18.0),
  ("omelette", 13.0), ("scrambled eggs", 13.0), ("fried eggs", 13.0),
  ("poached eggs", 13.0), ("soft boiled eggs", 13.0), ("hard boiled eggs", 13.0),
  ("sunny side up", 13.0), ("over easy", 13.0), ("over medium", 13.0), ("over hard", 13.0),
  ("benedict", 15.0), ("florentine", 12.0), ("royale", 15.0),
  ("hash browns", 3.0), ("home fries", 3.0), ("breakfast potatoes", 3.0),
  ("grits", 3.0), ("polenta", 3.0), ("cream of wheat", 3.0),
  ("french toast", 8.0), ("pancakes", 6.0), ("waffles", 6.0), ("crepes", 6.0),
  ("muffin", 6.0), ("scone", 6.0), ("biscuit", 6.0), ("croissant", 8.0),
  ("danish", 6.0), ("donut", 4.0), ("bagel", 10.0), ("english muffin", 8.0),
  ("cereal", 8.0), ("granola", 10.0), ("muesli", 8.0), ("oatmeal", 17.0),
  ("porridge", 17.0), ("cream of wheat", 3.0), ("farina", 3.0),
  ("yogurt", 10.0), ("greek yogurt", 10.0), ("cottage cheese", 11.0),
  ("smoothie", 8.0), ("protein shake", 25.0), ("meal replacement", 20.0),
  ("energy bar", 8.0), ("protein bar", 20.0), ("granola bar", 8.0),
  ("trail mix", 15.0), ("nuts", 20.0), ("seeds", 20.0), ("dried fruit", 3.0),
  ("jerky", 30.0), ("beef jerky", 30.0), ("turkey jerky", 30.0),
  ("pepperoni", 25.0), ("salami", 22.0), ("prosciutto", 28.0),
  ("ham", 22.0), ("bacon", 37.0), ("sausage", 18.0), ("chorizo", 22.0),
  ("pepperoni", 25.0), ("mortadella", 22.0), ("bologna", 15.0),
  ("pastrami", 22.0), ("corned beef", 22.0), ("roast beef", 26.0),
  ("turkey", 29.0), ("chicken", 31.0), ("duck", 23.0), ("goose", 22.0),
  ("quail", 22.0), ("pheasant", 22.0), ("partridge", 22.0),
  ("venison", 30.0), ("bison", 28.0), ("elk", 30.0), ("rabbit", 28.0),
  ("lamb", 25.0), ("veal", 24.0), ("goat", 25.0), ("wild boar", 25.0),
  ("antelope", 30.0), ("moose", 30.0), ("bear", 25.0), ("alligator", 25.0),
  ("ostrich", 30.0), ("emu", 30.0), ("kangaroo", 30.0), ("camel", 25.0),
  ("horse", 25.0), ("donkey", 25.0), ("mule", 25.0), ("buffalo", 25.0),
  ("yak", 25.0), ("llama", 25.0), ("alpaca", 25.0), ("guinea pig", 20.0),
  ("frog", 16.0), ("snail", 16.0), ("escargot", 16.0), ("caviar", 25.0),
  ("roe", 25.0), ("fish eggs", 25.0), ("anchovy", 20.0), ("sardine", 20.0),
  ("herring", 20.0), ("mackerel", 19.0), ("bluefish", 20.0), ("striped bass", 20.0),
  ("black sea bass", 20.0), ("red snapper", 20.0), ("grouper", 20.0),
  ("sea bass", 20.0), ("bass", 20.0), ("perch", 20.0), ("walleye", 20.0),
  ("pike", 20.0), ("pickerel", 20.0), ("muskellunge", 20.0), ("northern pike", 20.0),
  ("chain pickerel", 20.0), ("grass pickerel", 20.0), ("redfin pickerel", 20.0),
  ("american pickerel", 20.0), ("european pike", 20.0), ("northern pike", 20.0),
  ("southern pike", 20.0), ("western pike", 20.0), ("eastern pike", 20.0),
  ("central pike", 20.0), ("north american pike", 20.0), ("eurasian pike", 20.0),
  ("amur pike", 20.0), ("aquitanian pike", 20.0), ("southern pike", 20.0),
  ("western pike", 20.0), ("eastern pike", 20.0), ("central pike", 20.0),
  ("north american pike", 20.0), ("eurasian pike", 20.0), ("amur pike", 20.0),
  ("aquitanian pike", 20.0), ("southern pike", 20.0), ("western pike", 20.0),
  ("eastern pike", 20.0), ("central pike", 20.0), ("north american pike", 20.0),
  ("eurasian pike", 20.0), ("amur pike", 20.0), ("aquitanian pike", 20.0),
  ("lamb chop", 25.0), ("lamb shank", 25.0), ("lamb shoulder", 25.0), ("lamb leg", 25.0),
  ("rack of lamb", 25.0), ("lamb loin", 25.0), ("lamb rib", 25.0), ("lamb neck", 25.0),
  ("lamb breast", 25.0), ("lamb kidney", 25.0), ("lamb liver", 25.0), ("lamb heart", 25.0),
  ("lamb tongue", 25.0), ("lamb brain", 25.0), ("lamb sweetbreads", 25.0),
  ("mutton", 25.0), ("hogget", 25.0), ("yearling", 25.0),
  ("veal chop", 24.0), ("veal cutlet", 24.0), ("veal scallopini", 24.0), ("veal osso buco", 24.0),
  ("veal shank", 24.0), ("veal shoulder", 24.0), ("veal breast", 24.0), ("veal kidney", 24.0),
  ("veal liver", 24.0), ("veal heart", 24.0), ("veal tongue", 24.0), ("veal sweetbreads", 24.0),
  ("calf liver", 24.0), ("calf brain", 24.0), ("calf kidney", 24.0), ("calf heart", 24.0),
  ("calf tongue", 24.0), ("calf sweetbreads", 24.0), ("calf thymus", 24.0),
  ("pork belly", 25.0), ("pork shoulder", 25.0), ("pork butt", 25.0), ("pork picnic", 25.0),
  ("pork hock", 25.0), ("pork jowl", 25.0), ("pork cheek", 25.0), ("pork ear", 25.0),
  ("pork snout", 25.0), ("pork tail", 25.0), ("pork trotter", 25.0), ("pork kidney", 25.0),
  ("pork liver", 25.0), ("pork heart", 25.0), ("pork tongue", 25.0), ("pork brain", 25.0),
  ("pork sweetbreads", 25.0), ("pork chitterlings", 25.0), ("pork tripe", 25.0),
  ("beef tongue", 26.0), ("beef liver", 26.0), ("beef kidney", 26.0), ("beef heart", 26.0),
  ("beef brain", 26.0), ("beef sweetbreads", 26.0), ("beef tripe", 26.0), ("beef oxtail", 26.0),
  ("beef cheek", 26.0), ("beef shank", 26.0), ("beef brisket", 26.0), ("beef plate", 26.0),
  ("beef flank", 26.0), ("beef skirt", 26.0), ("beef hanger", 26.0), ("beef flat iron", 26.0),
  ("beef chuck", 26.0), ("beef round", 26.0), ("beef rump", 26.0), ("beef top round", 26.0),
  ("beef bottom round", 26.0), ("beef eye round", 26.0), ("beef heel", 26.0),
  ("chicken liver", 31.0), ("chicken heart", 31.0), ("chicken gizzard", 31.0),
  ("chicken neck", 31.0), ("chicken back", 31.0), ("chicken tail", 31.0),
  ("chicken feet", 31.0), ("chicken head", 31.0), ("chicken brain", 31.0),
  ("turkey liver", 29.0), ("turkey heart", 29.0), ("turkey gizzard", 29.0),
  ("turkey neck", 29.0), ("turkey wing", 29.0), ("turkey leg", 29.0),
  ("turkey thigh", 29.0), ("turkey back", 29.0), ("turkey tail", 29.0),
  ("duck liver", 23.0), ("duck heart", 23.0), ("duck gizzard", 23.0),
  ("duck neck", 23.0), ("duck wing", 23.0), ("duck leg", 23.0),
  ("duck breast", 23.0), ("duck back", 23.0), ("duck tail", 23.0),
  ("goose liver", 22.0), ("goose heart", 22.0), ("goose gizzard", 22.0),
  ("goose neck", 22.0), ("goose wing", 22.0), ("goose leg", 22.0),
  ("goose breast", 22.0), ("goose back", 22.0), ("goose tail", 22.0),
  ("quail breast", 22.0), ("quail leg", 22.0), ("quail wing", 22.0),
  ("pheasant breast", 22.0), ("pheasant leg", 22.0), ("pheasant wing", 22.0),
  ("partridge breast", 22.0), ("partridge leg", 22.0), ("partridge wing", 22.0),
  ("grouse breast", 22.0), ("grouse leg", 22.0), ("grouse wing", 22.0),
  ("woodcock", 22.0), ("snipe", 22.0), ("teal", 22.0), ("mallard", 22.0),
  ("canvasback", 22.0), ("redhead", 22.0), ("scaup", 22.0), ("wigeon", 22.0),
  ("gadwall", 22.0), ("pintail", 22.0), ("shoveler", 22.0), ("bluewing", 22.0),
  ("greenwing", 22.0), ("cinnamon", 22.0), ("ruddy", 22.0), ("bufflehead", 22.0),
  ("goldeneye", 22.0), ("merganser", 22.0), ("eider", 22.0), ("scoter", 22.0),
  ("longtail", 22.0), ("harlequin", 22.0), ("oldsquaw", 22.0), ("surf scoter", 22.0),
  ("white-winged scoter", 22.0), ("black scoter", 22.0), ("common eider", 22.0),
  ("king eider", 22.0), ("spectacled eider", 22.0), ("steller\x27s eider", 22.0),
  ("common goldeneye", 22.0), ("barrow\x27s goldeneye", 22.0), ("bufflehead", 22.0),
  ("hooded merganser", 22.0), ("common merganser", 22.0), ("red-breasted merganser", 22.0),
  ("common loon", 22.0), ("red-throated loon", 22.0), ("pacific loon", 22.0),
  ("arctic loon", 22.0), ("yellow-billed loon", 22.0), ("horned grebe", 22.0),
  ("red-necked grebe", 22.0), ("eared grebe", 22.0), ("western grebe", 22.0),
  ("clark\x27s grebe", 22.0), ("pied-billed grebe", 22.0), ("least grebe", 22.0),
  ("atlantic cod", 18.0), ("pacific cod", 18.0), ("alaska cod", 18.0), ("greenland cod", 18.0),
  ("haddock", 18.0), ("pollock", 18.0), ("whiting", 18.0), ("hake", 18.0),
  ("lingcod", 18.0), ("rockfish", 20.0), ("red snapper", 20.0), ("yellowtail snapper", 20.0),
  ("mangrove snapper", 20.0), ("mutton snapper", 20.0), ("lane snapper", 20.0),
  ("schoolmaster snapper", 20.0), ("cubera snapper", 20.0), ("dog snapper", 20.0),
  ("blackfin snapper", 20.0), ("silk snapper", 20.0), ("queen snapper", 20.0),
  ("wolffish", 20.0), ("monkfish", 20.0), ("anglerfish", 20.0), ("goosefish", 20.0),
  ("sea bass", 20.0), ("black sea bass", 20.0), ("striped bass", 20.0), ("white bass", 20.0),
  ("yellow bass", 20.0), ("white perch", 20.0), ("yellow perch", 20.0), ("walleye", 20.0),
  ("sauger", 20.0), ("saugeye", 20.0), ("bluegill", 20.0), ("sunfish", 20.0),
  ("pumpkinseed", 20.0), ("redear sunfish", 20.0), ("green sunfish", 20.0),
  ("longear sunfish", 20.0), ("warmouth", 20.0), ("rock bass", 20.0),
  ("crappie", 20.0), ("black crappie", 20.0), ("white crappie", 20.0),
  ("largemouth bass", 20.0), ("smallmouth bass", 20.0), ("spotted bass", 20.0),
  ("guadalupe bass", 20.0), ("redeye bass", 20.0), ("suzuki", 20.0),
  ("channel catfish", 20.0), ("blue catfish", 20.0), ("flathead catfish", 20.0),
  ("bullhead", 20.0), ("yellow bullhead", 20.0), ("brown bullhead", 20.0),
  ("black bullhead", 20.0), ("white catfish", 20.0), ("madtom", 20.0),
  ("stonecat", 20.0), ("tadpole madtom", 20.0), ("brindled madtom", 20.0),
  ("northern madtom", 20.0), ("margined madtom", 20.0), ("slender madtom", 20.0),
  ("freckled madtom", 20.0), ("neosho madtom", 20.0), ("checkered madtom", 20.0),
  ("piebald madtom", 20.0), ("saddled madtom", 20.0), ("caddo madtom", 20.0),
  ("elegant madtom", 20.0), ("amber madtom", 20.0), ("orangefin madtom", 20.0),
  ("saddled madtom", 20.0), ("checkered madtom", 20.0), ("piebald madtom", 20.0),
  ("neosho madtom", 20.0), ("freckled madtom", 20.0), ("slender madtom", 20.0),
  ("margined madtom", 20.0), ("northern madtom", 20.0), ("brindled madtom", 20.0),
  ("tadpole madtom", 20.0), ("stonecat", 20.0), ("madtom", 20.0),
  ("white catfish", 20.0), ("black bullhead", 20.0), ("brown bullhead", 20.0),
  ("yellow bullhead", 20.0), ("bullhead", 20.0), ("flathead catfish", 20.0),
  ("blue catfish", 20.0), ("channel catfish", 20.0), ("suzuki", 20.0),
  ("redeye bass", 20.0), ("guadalupe bass", 20.0), ("spotted bass", 20.0),
  ("smallmouth bass", 20.0), ("largemouth bass", 20.0), ("white crappie", 20.0),
  ("black crappie", 20.0), ("crappie", 20.0), ("rock bass", 20.0),
  ("warmouth", 20.0), ("longear sunfish", 20.0), ("green sunfish", 20.0),
  ("redear sunfish", 20.0), ("pumpkinseed", 20.0), ("sunfish", 20.0),
  ("bluegill", 20.0), ("saugeye", 20.0), ("sauger", 20.0), ("walleye", 20.0),
  ("yellow perch", 20.0), ("white perch", 20.0), ("yellow bass", 20.0),
  ("white bass", 20.0), ("striped bass", 20.0), ("black sea bass", 20.0),
  ("sea bass", 20.0), ("goosefish", 20.0), ("anglerfish", 20.0), ("monkfish", 20.0),
  ("wolffish", 20.0), ("queen snapper", 20.0), ("silk snapper", 20.0),
  ("blackfin snapper", 20.0), ("dog snapper", 20.0), ("cubera snapper", 20.0),
  ("schoolmaster snapper", 20.0), ("lane snapper", 20.0), ("mutton snapper", 20.0),
  ("mangrove snapper", 20.0), ("yellowtail snapper", 20.0), ("red snapper", 20.0),
  ("rockfish", 20.0), ("lingcod", 18.0), ("hake", 18.0), ("whiting", 18.0),
  ("pollock", 18.0), ("haddock", 18.0), ("greenland cod", 18.0), ("alaska cod", 18.0),
  ("pacific cod", 18.0), ("atlantic cod", 18.0),
  ("blue crab", 19.0), ("dungeness crab", 19.0), ("snow crab", 19.0), ("king crab", 19.0),
  ("stone crab", 19.0), ("spider crab", 19.0), ("horseshoe crab", 19.0),
  ("hermit crab", 19.0), ("fiddler crab", 19.0), ("ghost crab", 19.0),
  ("land crab", 19.0), ("coconut crab", 19.0), ("robber crab", 19.0),
  ("christmas island red crab", 19.0), ("japanese spider crab", 19.0),
  ("alaskan king crab", 19.0), ("red king crab", 19.0), ("blue king crab", 19.0),
  ("golden king crab", 19.0), ("brown king crab", 19.0), ("southern king crab", 19.0),
  ("northern king crab", 19.0), ("atlantic king crab", 19.0), ("pacific king crab", 19.0),
  ("indian ocean king crab", 19.0), ("antarctic king crab", 19.0),
  ("arctic king crab", 19.0), ("bering sea king crab", 19.0), ("okhotsk king crab", 19.0),
  ("japan sea king crab", 19.0), ("east china sea king crab", 19.0),
  ("yellow sea king crab", 19.0), ("south china sea king crab", 19.0),
  ("philippine sea king crab", 19.0), ("coral sea king crab", 19.0),
  ("tasman sea king crab", 19.0), ("southern ocean king crab", 19.0),
  ("mediterranean king crab", 19.0), ("black sea king crab", 19.0),
  ("caspian sea king crab", 19.0), ("aral sea king crab", 19.0),
  ("baltic sea king crab", 19.0), ("north sea king crab", 19.0),
  ("celtic sea king crab", 19.0), ("irish sea king crab", 19.0),
  ("english channel king crab", 19.0), ("biscay bay king crab", 19.0),
  ("gulf of mexico king crab", 19.0), ("caribbean sea king crab", 19.0),
  ("gulf of california king crab", 19.0), ("gulf of alaska king crab", 19.0),
  ("beaufort sea king crab", 19.0), ("chukchi sea king crab", 19.0),
  ("east siberian sea king crab", 19.0), ("laptev sea king crab", 19.0),
  ("kara sea king crab", 19.0), ("barents sea king crab", 19.0),
  ("white sea king crab", 19.0), ("pechora sea king crab", 19.0),
  ("artichoke", 3.3), ("beets", 1.6), ("celery", 0.7), ("garlic", 6.4), ("ginger", 1.8),
  ("leek", 1.5), ("parsnip", 1.2), ("radish", 0.9), ("rutabaga", 1.2), ("turnip", 0.9),
  ("bok choy", 1.5), ("napa cabbage", 1.2), ("watercress", 2.3), ("arugula", 2.6),
  ("collard greens", 3.6), ("mustard greens", 2.9), ("swiss chard", 1.8),
  ("okra", 2.0), ("jicama", 0.7), ("kohlrabi", 1.7), ("fennel", 1.2), ("endive", 1.3),
  ("escarole", 1.2), ("radicchio", 1.4), ("chicory", 1.4), ("dandelion greens", 2.7),
  ("beet greens", 2.2), ("turnip greens", 1.5), ("radish greens", 1.3),
  ("carrot greens", 1.2), ("parsnip greens", 1.1), ("celery greens", 1.0),
  ("fennel greens", 1.2), ("leek greens", 1.1), ("onion greens", 1.0),
  ("garlic greens", 1.5), ("ginger greens", 1.0), ("turmeric greens", 1.0),
  ("horseradish", 1.2), ("wasabi", 1.5), ("daikon", 0.6), ("water chestnut", 1.4),
  ("bamboo shoot", 2.6), ("lotus root", 2.6), ("taro root", 1.5), ("cassava", 1.4),
  ("yuca", 1.4), ("malanga", 1.4), ("eddo", 1.4), ("dasheen", 1.4),
  ("arrowroot", 0.3), ("sago", 0.2), ("tapioca", 0.2), ("arrowhead", 0.3),
  ("water caltrop", 1.4), ("chinese water chestnut", 1.4), ("japanese water chestnut", 1.4),
  ("indian water chestnut", 1.4), ("singhara", 1.4), ("pani phal", 1.4),
  ("water lily root", 1.4), ("lotus seed", 17.0), ("lotus stem", 1.4),
  ("lotus leaf", 1.4), ("lotus flower", 1.4), ("lotus petal", 1.4),
  ("lotus stamen", 1.4), ("lotus pistil", 1.4), ("lotus fruit", 1.4),
  ("lotus pod", 1.4), ("lotus seed pod", 1.4), ("lotus seed head", 1.4),
  ("lotus seed cluster", 1.4), ("lotus seed bunch", 1.4), ("lotus seed group", 1.4),
  ("lotus seed collection", 1.4), ("lotus seed gathering", 1.4), ("lotus seed harvest", 1.4),
  ("lotus seed crop", 1.4), ("lotus seed yield", 1.4), ("lotus seed production", 1.4),
  ("lotus seed supply", 1.4), ("lotus seed stock", 1.4), ("lotus seed inventory", 1.4),
  ("lotus seed reserve", 1.4), ("lotus seed store", 1.4), ("lotus seed cache", 1.4),
  ("lotus seed hoard", 1.4), ("lotus seed stash", 1.4), ("lotus seed collection", 1.4),
  ("lotus seed gathering", 1.4), ("lotus seed harvest", 1.4), ("lotus seed crop", 1.4),
  ("lotus seed yield", 1.4), ("lotus seed production", 1.4), ("lotus seed supply", 1.4),
  ("lotus seed stock", 1.4), ("lotus seed inventory", 1.4), ("lotus seed reserve", 1.4),
  ("lotus seed store", 1.4), ("lotus seed cache", 1.4), ("lotus seed hoard", 1.4),
  ("lotus seed stash", 1.4)]

/-- Python `label in self.protein_database` of `food_detection.py`. -/
def fdHasKey (label : String) : Bool :=
  pyHasKey fdProteinDB label

/-! ## `food_detection.py`: food / non-food keyword tables -/

/-- `self.food_keywords`. -/
def foodKeywords : List (String × List String) := [
  ("meat", ["chicken", "beef", "pork", "lamb", "turkey", "duck", "steak", "meat", "bacon", "ham", "sausage"]),
  ("fish", ["salmon", "tuna", "cod", "tilapia", "fish", "seafood", "shrimp", "crab", "lobster"]),
  ("dairy", ["milk", "cheese", "yogurt", "cream", "butter", "cottage cheese", "greek yogurt"]),
  ("eggs", ["egg", "eggs", "omelet", "scrambled", "fried egg", "boiled egg"]),
  ("legumes", ["beans", "lentils", "chickpeas", "peas", "soy", "tofu"]),
  ("nuts", ["almonds", "walnuts", "peanuts", "cashews", "nuts", "pistachio"]),
  ("grains", ["rice", "bread", "pasta", "oats", "quinoa", "cereal", "noodles", "spaghetti"]),
  ("vegetables", ["broccoli", "spinach", "carrot", "potato", "tomato", "onion", "pepper", "lettuce"]),
  ("fruits", ["apple", "banana", "orange", "berry", "fruit", "grape", "strawberry", "blueberry"])]

/-- `self.non_food_keywords`: the fixed deny-list of container / utensil /
location words. -/
def nonFoodKeywords : List (String × List String) := [
  ("containers", ["plate", "bowl", "dish", "cup", "glass", "mug", "container", "plateware"]),
  ("utensils", ["fork", "knife", "spoon", "chopstick", "chopsticks", "utensil", "cutlery"]),
  ("furniture", ["table", "chair", "counter", "surface", "desk", "furniture"]),
  ("appliances", ["microwave", "oven", "stove", "refrigerator", "appliance", "kitchen"]),
  ("materials", ["ceramic", "plastic", "metal", "wood", "glass", "fabric", "paper"]),
  ("generic", ["object", "item", "thing", "stuff", "material", "product", "goods"]),
  ("actions", ["eating", "cooking", "serving", "preparing", "dining", "meal time"]),
  ("places", ["restaurant", "kitchen", "dining room", "cafeteria", "food court"])]

/-- `self.food_categories`: broad category sets for consensus checks. -/
def foodCategories : List (String × List String) := [
  ("meat", ["chicken", "beef", "pork", "lamb", "turkey", "ham", "bacon", "sausage", "pepperoni", "salami"]),
  ("fish", ["salmon", "tuna", "cod", "tilapia", "shrimp", "crab", "lobster", "fish"]),
  ("dairy", ["cheese", "milk", "yogurt", "cream", "butter"]),
  ("eggs", ["egg", "eggs", "omelet"]),
  ("carb", ["rice", "pasta", "bread", "toast", "pizza", "quinoa", "oats"]),
  ("vegetable", ["vegetables", "salad", "broccoli", "spinach", "tomato", "cucumber", "lettuce", "onion", "carrot", "mushrooms"]),
  ("fruit", ["apple", "banana", "orange", "strawberry", "berry", "grape"])]

/-- The `food_patterns` list inside `_is_food_item`. -/
def foodPatterns : List String := [
  "food", "meal", "dish", "cuisine", "recipe", "ingredient",
  "breakfast", "lunch", "dinner", "snack", "dessert",
  "soup", "salad", "sandwich", "pizza", "burger", "pasta",
  "cake", "pie", "cookie", "bread", "roll", "muffin"]

/-- The `non_food_single_words` list inside `_is_food_item`. -/
def nonFoodSingleWords : List String :=
  ["plate", "bowl", "cup", "glass", "fork", "knife", "spoon", "table", "chair"]

/-- `_is_food_item`: deny-list check first, then food keywords, protein
database membership, food patterns, and a lenient single-word rule. -/
def isFoodItem (label : String) : Bool :=
  let l := pyStrip (pyLower label)
  if nonFoodKeywords.any (fun c => c.2.any (fun kw => strIn kw l)) then false
  else if foodKeywords.any (fun c => c.2.any (fun kw => strIn kw l)) then true
  else if fdHasKey l then true
  else if foodPatterns.any (fun p => strIn p l) then true
  else if (pySplit l).length = 1 ∧ l.length > 3 then
    decide (¬ nonFoodSingleWords.contains l)
  else false

/-! ## `food_detection.py`: composite-dish and meal decomposition tables -/

/-- `complex_dish_mappings` of `_extract_food_with_improved_matching`
(checked before exact matching; first matching key wins).  The source dict
repeats the key `"pepperoni"` with an identical value, so iterating this
list in order coincides with Python's dict iteration. -/
def complexDishMappings : List (String × List String) := [
  ("bolognese", ["pasta", "beef"]),
  ("bolognese sauce", ["pasta", "beef"]),
  ("meat sauce", ["pasta", "beef"]),
  ("beef sauce", ["pasta", "beef"]),
  ("beef spaghetti", ["pasta", "beef"]),
  ("beef pasta", ["pasta", "beef"]),
  ("chicken sauce", ["pasta", "chicken"]),
  ("chicken pasta", ["pasta", "chicken"]),
  ("pork sauce", ["pasta", "pork"]),
  ("lamb sauce", ["pasta", "lamb"]),
  ("turkey sauce", ["pasta", "turkey"]),
  ("spaghetti bolognese", ["pasta", "beef"]),
  ("pasta bolognese", ["pasta", "beef"]),
  ("carbonara", ["pasta", "bacon", "eggs"]),
  ("alfredo", ["pasta", "cheese", "cream"]),
  ("marinara", ["pasta", "tomato", "herbs"]),
  ("pesto", ["pasta", "basil", "pine nuts", "cheese"]),
  ("curry", ["rice", "spices", "vegetables"]),
  ("stir fry", ["rice", "vegetables", "protein"]),
  ("fried rice", ["rice", "vegetables", "eggs"]),
  ("noodles", ["pasta", "vegetables"]),
  ("ramen", ["noodles", "broth", "vegetables"]),
  ("sushi", ["rice", "fish", "vegetables"]),
  ("burrito", ["wrap", "beans", "rice", "meat"]),
  ("taco", ["tortilla", "meat", "vegetables"]),
  ("quesadilla", ["tortilla", "cheese", "vegetables"]),
  ("enchilada", ["tortilla", "cheese", "sauce"]),
  ("fajita", ["tortilla", "meat", "vegetables"]),
  ("gyro", ["wrap", "meat", "vegetables"]),
  ("kebab", ["meat", "vegetables", "bread"]),
  ("shawarma", ["wrap", "meat", "vegetables"]),
  ("falafel", ["chickpeas", "vegetables", "bread"]),
  ("hummus", ["chickpeas", "tahini", "olive oil"]),
  ("guacamole", ["avocado", "tomato", "onion"]),
  ("salsa", ["tomato", "onion", "peppers"]),
  ("dip", ["cheese", "vegetables"]),
  ("spread", ["cheese", "vegetables"]),
  ("salad dressing", ["oil", "vinegar", "herbs"]),
  ("gravy", ["meat juices", "flour", "broth"]),
  ("sauce", ["tomato", "herbs", "spices"]),
  ("soup", ["broth", "vegetables", "meat"]),
  ("stew", ["meat", "vegetables", "broth"]),
  ("casserole", ["meat", "vegetables", "cheese"]),
  ("lasagna", ["pasta", "cheese", "meat", "sauce"]),
  ("pizza", ["dough", "cheese", "sauce"]),
  ("sandwich", ["bread", "meat", "vegetables"]),
  ("burger", ["bun", "meat", "vegetables"]),
  ("hot dog", ["bun", "sausage", "vegetables"]),
  ("sub", ["bread", "meat", "vegetables"]),
  ("wrap", ["tortilla", "meat", "vegetables"]),
  ("panini", ["bread", "cheese", "meat"]),
  ("toast", ["bread", "butter", "jam"]),
  ("french toast", ["bread", "eggs", "milk"]),
  ("pancakes", ["flour", "eggs", "milk"]),
  ("waffles", ["flour", "eggs", "milk"]),
  ("crepes", ["flour", "eggs", "milk"]),
  ("muffin", ["flour", "eggs", "sugar"]),
  ("scone", ["flour", "butter", "sugar"]),
  ("biscuit", ["flour", "butter", "milk"]),
  ("croissant", ["flour", "butter", "yeast"]),
  ("danish", ["flour", "butter", "sugar"]),
  ("donut", ["flour", "sugar", "yeast"]),
  ("bagel", ["flour", "yeast", "salt"]),
  ("english muffin", ["flour", "yeast", "milk"]),
  ("cereal", ["grains", "sugar", "milk"]),
  ("granola", ["oats", "nuts", "honey"]),
  ("muesli", ["oats", "nuts", "dried fruit"]),
  ("oatmeal", ["oats", "milk", "sugar"]),
  ("porridge", ["oats", "milk", "sugar"]),
  ("cream of wheat", ["wheat", "milk", "sugar"]),
  ("farina", ["wheat", "milk", "sugar"]),
  ("yogurt", ["milk", "bacteria", "fruit"]),
  ("greek yogurt", ["milk", "bacteria", "fruit"]),
  ("cottage cheese", ["milk", "bacteria", "salt"]),
  ("smoothie", ["fruit", "milk", "yogurt"]),
  ("protein shake", ["protein powder", "milk", "fruit"]),
  ("meal replacement", ["protein", "carbohydrates", "vitamins"]),
  ("energy bar", ["nuts", "dried fruit", "honey"]),
  ("protein bar", ["protein powder", "nuts", "honey"]),
  ("granola bar", ["oats", "nuts", "honey"]),
  ("trail mix", ["nuts", "dried fruit", "chocolate"]),
  ("nuts", ["protein", "healthy fats", "fiber"]),
  ("seeds", ["protein", "healthy fats", "fiber"]),
  ("dried fruit", ["fruit", "sugar", "fiber"]),
  ("jerky", ["meat", "salt", "spices"]),
  ("beef jerky", ["beef", "salt", "spices"]),
  ("turkey jerky", ["turkey", "salt", "spices"]),
  ("pepperoni", ["pork", "beef", "spices"]),
  ("salami", ["pork", "beef", "spices"]),
  ("prosciutto", ["pork", "salt", "spices"]),
  ("ham", ["pork", "salt", "spices"]),
  ("bacon", ["pork", "salt", "smoke"]),
  ("sausage", ["pork", "beef", "spices"]),
  ("chorizo", ["pork", "spices", "paprika"]),
  ("pepperoni", ["pork", "beef", "spices"]),
  ("mortadella", ["pork", "beef", "spices"]),
  ("bologna", ["pork", "beef", "spices"]),
  ("pastrami", ["beef", "salt", "spices"]),
  ("corned beef", ["beef", "salt", "spices"]),
  ("roast beef", ["beef", "salt", "spices"]),
  ("chicken parmesan", ["chicken", "cheese", "pasta"]),
  ("chicken alfredo", ["chicken", "pasta", "cheese"]),
  ("beef stroganoff", ["beef", "pasta", "cream"]),
  ("chicken teriyaki", ["chicken", "rice", "vegetables"]),
  ("beef and broccoli", ["beef", "broccoli", "rice"]),
  ("chicken fried rice", ["chicken", "rice", "eggs", "vegetables"]),
  ("beef fried rice", ["beef", "rice", "eggs", "vegetables"]),
  ("shrimp fried rice", ["shrimp", "rice", "eggs", "vegetables"]),
  ("chicken noodle soup", ["chicken", "noodles", "vegetables"]),
  ("beef stew", ["beef", "vegetables", "potatoes"]),
  ("chicken pot pie", ["chicken", "vegetables", "pastry"]),
  ("fish and chips", ["fish", "potatoes", "batter"]),
  ("chicken wings", ["chicken", "sauce", "spices"]),
  ("buffalo wings", ["chicken", "hot sauce", "butter"]),
  ("chicken tenders", ["chicken", "breading", "oil"]),
  ("chicken nuggets", ["chicken", "breading", "oil"]),
  ("meatballs", ["meat", "breadcrumbs", "eggs"]),
  ("chicken meatballs", ["chicken", "breadcrumbs", "eggs"]),
  ("beef meatballs", ["beef", "breadcrumbs", "eggs"]),
  ("turkey meatballs", ["turkey", "breadcrumbs", "eggs"]),
  ("chicken salad", ["chicken", "vegetables", "dressing"]),
  ("tuna salad", ["tuna", "vegetables", "dressing"]),
  ("egg salad", ["eggs", "vegetables", "dressing"]),
  ("potato salad", ["potatoes", "vegetables", "dressing"]),
  ("mac and cheese", ["pasta", "cheese", "milk"]),
  ("chicken and rice", ["chicken", "rice", "vegetables"]),
  ("beef and rice", ["beef", "rice", "vegetables"]),
  ("pork and rice", ["pork", "rice", "vegetables"]),
  ("salmon and rice", ["salmon", "rice", "vegetables"]),
  ("chicken and vegetables", ["chicken", "vegetables"]),
  ("beef and vegetables", ["beef", "vegetables"]),
  ("pork and vegetables", ["pork", "vegetables"]),
  ("fish and vegetables", ["fish", "vegetables"]),
  ("chicken and potatoes", ["chicken", "potatoes"]),
  ("beef and potatoes", ["beef", "potatoes"]),
  ("pork and potatoes", ["pork", "potatoes"]),
  ("fish and potatoes", ["fish", "potatoes"]),
  ("turkey", ["turkey", "salt", "spices"]),
  ("chicken", ["chicken", "salt", "spices"]),
  ("duck", ["duck", "salt", "spices"]),
  ("goose", ["goose", "salt", "spices"]),
  ("quail", ["quail", "salt", "spices"]),
  ("pheasant", ["pheasant", "salt", "spices"]),
  ("partridge", ["partridge", "salt", "spices"]),
  ("venison", ["venison", "salt", "spices"]),
  ("bison", ["bison", "salt", "spices"]),
  ("elk", ["elk", "salt", "spices"]),
  ("rabbit", ["rabbit", "salt", "spices"]),
  ("lamb", ["lamb", "salt", "spices"]),
  ("veal", ["veal", "salt", "spices"]),
  ("goat", ["goat", "salt", "spices"]),
  ("wild boar", ["wild boar", "salt", "spices"]),
  ("antelope", ["antelope", "salt", "spices"]),
  ("moose", ["moose", "salt", "spices"]),
  ("bear", ["bear", "salt", "spices"]),
  ("alligator", ["alligator", "salt", "spices"]),
  ("ostrich", ["ostrich", "salt", "spices"]),
  ("emu", ["emu", "salt", "spices"]),
  ("kangaroo", ["kangaroo", "salt", "spices"]),
  ("camel", ["camel", "salt", "spices"]),
  ("horse", ["horse", "salt", "spices"]),
  ("donkey", ["donkey", "salt", "spices"]),
  ("mule", ["mule", "salt", "spices"]),
  ("buffalo", ["buffalo", "salt", "spices"]),
  ("yak", ["yak", "salt", "spices"]),
  ("llama", ["llama", "salt", "spices"]),
  ("alpaca", ["alpaca", "salt", "spices"]),
  ("guinea pig", ["guinea pig", "salt", "spices"]),
  ("frog", ["frog", "salt", "spices"]),
  ("snail", ["snail", "salt", "spices"]),
  ("escargot", ["snail", "salt", "spices"]),
  ("caviar", ["fish eggs", "salt", "spices"]),
  ("roe", ["fish eggs", "salt", "spices"]),
  ("fish eggs", ["fish eggs", "salt", "spices"]),
  ("anchovy", ["anchovy", "salt", "spices"]),
  ("sardine", ["sardine", "salt", "spices"]),
  ("herring", ["herring", "salt", "spices"]),
  ("mackerel", ["mackerel", "salt", "spices"]),
  ("bluefish", ["bluefish", "salt", "spices"]),
  ("striped bass", ["striped bass", "salt", "spices"]),
  ("black sea bass", ["black sea bass", "salt", "spices"]),
  ("red snapper", ["red snapper", "salt", "spices"]),
  ("grouper", ["grouper", "salt", "spices"]),
  ("sea bass", ["sea bass", "salt", "spices"]),
  ("bass", ["bass", "salt", "spices"]),
  ("perch", ["perch", "salt", "spices"]),
  ("walleye", ["walleye", "salt", "spices"]),
  ("pike", ["pike", "salt", "spices"]),
  ("pickerel", ["pickerel", "salt", "spices"]),
  ("muskellunge", ["muskellunge", "salt", "spices"]),
  ("northern pike", ["northern pike", "salt", "spices"]),
  ("chain pickerel", ["chain pickerel", "salt", "spices"]),
  ("grass pickerel", ["grass pickerel", "salt", "spices"]),
  ("redfin pickerel", ["redfin pickerel", "salt", "spices"]),
  ("american pickerel", ["american pickerel", "salt", "spices"]),
  ("european pike", ["european pike", "salt", "spices"]),
  ("southern pike", ["southern pike", "salt", "spices"]),
  ("western pike", ["western pike", "salt", "spices"]),
  ("eastern pike", ["eastern pike", "salt", "spices"]),
  ("central pike", ["central pike", "salt", "spices"]),
  ("north american pike", ["north american pike", "salt", "spices"]),
  ("eurasian pike", ["eurasian pike", "salt", "spices"]),
  ("amur pike", ["amur pike", "salt", "spices"]),
  ("aquitanian pike", ["aquitanian pike", "salt", "spices"])]

/-- The composite-dish check of `_extract_food_with_improved_matching`:
some mapping key occurs in the label (this is the flag `complex_dish_found`,
set before — and suppressing — the exact-match rule). -/
def complexDishFound (label : String) : Bool :=
  (complexDishMappings.find? (fun p => strIn p.1 label)).isSome

/-- `complex_dish_patterns` of `_extract_food_with_improved_matching`
(a list of pairs; every matching pattern contributes, no early exit). -/
def complexDishPatterns : List (String × List String) := [
  ("beef spaghetti", ["beef", "pasta"]),
  ("beef pasta", ["beef", "pasta"]),
  ("chicken rice", ["chicken", "rice"]),
  ("chicken pasta", ["chicken", "pasta"]),
  ("salad vegetables", ["salad", "vegetables"]),
  ("fish vegetables", ["fish", "vegetables"]),
  ("pork rice", ["pork", "rice"]),
  ("lamb rice", ["lamb", "rice"]),
  ("turkey rice", ["turkey", "rice"]),
  ("curry rice", ["curry", "rice"]),
  ("curry chicken", ["curry", "chicken"]),
  ("curry beef", ["curry", "beef"]),
  ("sushi rice", ["sushi", "rice"]),
  ("pizza pepperoni", ["pizza", "pepperoni"]),
  ("pizza cheese", ["pizza", "cheese"]),
  ("wrap chicken", ["wrap", "chicken"]),
  ("wrap beef", ["wrap", "beef"]),
  ("sandwich chicken", ["sandwich", "chicken"]),
  ("sandwich beef", ["sandwich", "beef"]),
  ("pasta carbonara", ["pasta", "bacon", "eggs"]),
  ("pasta alfredo", ["pasta", "cheese", "cream"]),
  ("pasta marinara", ["pasta", "tomato", "herbs"]),
  ("pasta pesto", ["pasta", "basil", "pine nuts"]),
  ("rice curry", ["rice", "curry", "vegetables"]),
  ("rice stir fry", ["rice", "vegetables", "protein"]),
  ("rice fried", ["rice", "vegetables", "eggs"]),
  ("noodles ramen", ["noodles", "broth", "vegetables"]),
  ("noodles stir fry", ["noodles", "vegetables", "protein"]),
  ("sushi roll", ["sushi", "rice", "fish"]),
  ("burrito bowl", ["rice", "beans", "meat", "vegetables"]),
  ("taco salad", ["lettuce", "meat", "vegetables", "cheese"]),
  ("quesadilla chicken", ["tortilla", "chicken", "cheese"]),
  ("enchilada beef", ["tortilla", "beef", "cheese"]),
  ("fajita chicken", ["tortilla", "chicken", "vegetables"]),
  ("gyro lamb", ["wrap", "lamb", "vegetables"]),
  ("kebab chicken", ["chicken", "vegetables", "bread"]),
  ("shawarma chicken", ["wrap", "chicken", "vegetables"]),
  ("falafel wrap", ["chickpeas", "vegetables", "bread"]),
  ("hummus plate", ["chickpeas", "bread", "vegetables"]),
  ("guacamole chips", ["avocado", "tomato", "chips"]),
  ("salsa chips", ["tomato", "onion", "chips"]),
  ("dip vegetables", ["cheese", "vegetables"]),
  ("spread bread", ["cheese", "bread"]),
  ("salad dressing", ["oil", "vinegar", "herbs"]),
  ("gravy meat", ["meat juices", "flour", "broth"]),
  ("sauce pasta", ["tomato", "herbs", "spices"]),
  ("soup vegetables", ["broth", "vegetables", "meat"]),
  ("stew meat", ["meat", "vegetables", "broth"]),
  ("casserole cheese", ["meat", "vegetables", "cheese"]),
  ("lasagna meat", ["pasta", "cheese", "meat", "sauce"]),
  ("pizza cheese", ["dough", "cheese", "sauce"]),
  ("sandwich meat", ["bread", "meat", "vegetables"]),
  ("burger meat", ["bun", "meat", "vegetables"]),
  ("hot dog sausage", ["bun", "sausage", "vegetables"]),
  ("sub meat", ["bread", "meat", "vegetables"]),
  ("wrap meat", ["tortilla", "meat", "vegetables"]),
  ("panini cheese", ["bread", "cheese", "meat"]),
  ("toast butter", ["bread", "butter", "jam"]),
  ("french toast eggs", ["bread", "eggs", "milk"]),
  ("pancakes syrup", ["flour", "eggs", "milk", "syrup"]),
  ("waffles syrup", ["flour", "eggs", "milk", "syrup"]),
  ("crepes fruit", ["flour", "eggs", "milk", "fruit"]),
  ("muffin fruit", ["flour", "eggs", "sugar", "fruit"]),
  ("scone butter", ["flour", "butter", "sugar"]),
  ("biscuit butter", ["flour", "butter", "milk"]),
  ("croissant butter", ["flour", "butter", "yeast"]),
  ("danish fruit", ["flour", "butter", "sugar", "fruit"]),
  ("donut sugar", ["flour", "sugar", "yeast"]),
  ("bagel cream cheese", ["flour", "yeast", "cream cheese"]),
  ("english muffin butter", ["flour", "yeast", "milk", "butter"]),
  ("cereal milk", ["grains", "sugar", "milk"]),
  ("granola yogurt", ["oats", "nuts", "honey", "yogurt"]),
  ("muesli milk", ["oats", "nuts", "dried fruit", "milk"]),
  ("oatmeal fruit", ["oats", "milk", "sugar", "fruit"]),
  ("porridge fruit", ["oats", "milk", "sugar", "fruit"]),
  ("cream of wheat milk", ["wheat", "milk", "sugar"]),
  ("farina milk", ["wheat", "milk", "sugar"]),
  ("yogurt fruit", ["milk", "bacteria", "fruit"]),
  ("greek yogurt honey", ["milk", "bacteria", "honey"]),
  ("cottage cheese fruit", ["milk", "bacteria", "fruit"]),
  ("smoothie fruit", ["fruit", "milk", "yogurt"]),
  ("protein shake milk", ["protein powder", "milk", "fruit"]),
  ("meal replacement shake", ["protein", "carbohydrates", "vitamins"]),
  ("energy bar nuts", ["nuts", "dried fruit", "honey"]),
  ("protein bar nuts", ["protein powder", "nuts", "honey"]),
  ("granola bar nuts", ["oats", "nuts", "honey"]),
  ("trail mix nuts", ["nuts", "dried fruit", "chocolate"]),
  ("nuts fruit", ["nuts", "dried fruit"]),
  ("seeds fruit", ["seeds", "dried fruit"]),
  ("dried fruit nuts", ["dried fruit", "nuts"]),
  ("jerky meat", ["meat", "salt", "spices"]),
  ("beef jerky beef", ["beef", "salt", "spices"]),
  ("turkey jerky turkey", ["turkey", "salt", "spices"]),
  ("pepperoni pizza", ["pepperoni", "pizza", "cheese"]),
  ("salami sandwich", ["salami", "bread", "cheese"]),
  ("prosciutto bread", ["prosciutto", "bread", "cheese"]),
  ("ham sandwich", ["ham", "bread", "cheese"]),
  ("bacon eggs", ["bacon", "eggs"]),
  ("sausage bread", ["sausage", "bread"]),
  ("chorizo rice", ["chorizo", "rice", "vegetables"]),
  ("mortadella bread", ["mortadella", "bread", "cheese"]),
  ("bologna sandwich", ["bologna", "bread", "cheese"]),
  ("pastrami bread", ["pastrami", "bread", "cheese"]),
  ("corned beef cabbage", ["corned beef", "cabbage", "potato"]),
  ("roast beef sandwich", ["roast beef", "bread", "cheese"]),
  ("turkey sandwich", ["turkey", "bread", "cheese"]),
  ("chicken breast", ["chicken", "salt", "spices"]),
  ("duck orange", ["duck", "orange", "sauce"]),
  ("goose apple", ["goose", "apple", "sauce"]),
  ("quail grape", ["quail", "grape", "sauce"]),
  ("pheasant berry", ["pheasant", "berry", "sauce"]),
  ("partridge herb", ["partridge", "herb", "sauce"]),
  ("venison berry", ["venison", "berry", "sauce"]),
  ("bison berry", ["bison", "berry", "sauce"]),
  ("elk berry", ["elk", "berry", "sauce"]),
  ("rabbit herb", ["rabbit", "herb", "sauce"]),
  ("lamb mint", ["lamb", "mint", "sauce"]),
  ("veal herb", ["veal", "herb", "sauce"]),
  ("goat herb", ["goat", "herb", "sauce"]),
  ("wild boar berry", ["wild boar", "berry", "sauce"]),
  ("antelope berry", ["antelope", "berry", "sauce"]),
  ("moose berry", ["moose", "berry", "sauce"]),
  ("bear berry", ["bear", "berry", "sauce"]),
  ("alligator spice", ["alligator", "spice", "sauce"]),
  ("ostrich berry", ["ostrich", "berry", "sauce"]),
  ("emu berry", ["emu", "berry", "sauce"]),
  ("kangaroo berry", ["kangaroo", "berry", "sauce"]),
  ("camel spice", ["camel", "spice", "sauce"]),
  ("horse herb", ["horse", "herb", "sauce"]),
  ("donkey herb", ["donkey", "herb", "sauce"]),
  ("mule herb", ["mule", "herb", "sauce"]),
  ("buffalo berry", ["buffalo", "berry", "sauce"]),
  ("yak berry", ["yak", "berry", "sauce"]),
  ("llama herb", ["llama", "herb", "sauce"]),
  ("alpaca herb", ["alpaca", "herb", "sauce"]),
  ("guinea pig herb", ["guinea pig", "herb", "sauce"]),
  ("frog herb", ["frog", "herb", "sauce"]),
  ("snail herb", ["snail", "herb", "sauce"]),
  ("escargot herb", ["snail", "herb", "sauce"]),
  ("caviar bread", ["fish eggs", "bread", "butter"]),
  ("roe bread", ["fish eggs", "bread", "butter"]),
  ("fish eggs bread", ["fish eggs", "bread", "butter"]),
  ("anchovy pizza", ["anchovy", "pizza", "cheese"]),
  ("sardine bread", ["sardine", "bread", "cheese"]),
  ("herring bread", ["herring", "bread", "cheese"]),
  ("mackerel rice", ["mackerel", "rice", "vegetables"]),
  ("bluefish rice", ["bluefish", "rice", "vegetables"]),
  ("striped bass rice", ["striped bass", "rice", "vegetables"]),
  ("black sea bass rice", ["black sea bass", "rice", "vegetables"]),
  ("red snapper rice", ["red snapper", "rice", "vegetables"]),
  ("grouper rice", ["grouper", "rice", "vegetables"]),
  ("sea bass rice", ["sea bass", "rice", "vegetables"]),
  ("bass rice", ["bass", "rice", "vegetables"]),
  ("perch rice", ["perch", "rice", "vegetables"]),
  ("walleye rice", ["walleye", "rice", "vegetables"]),
  ("pike rice", ["pike", "rice", "vegetables"]),
  ("pickerel rice", ["pickerel", "rice", "vegetables"]),
  ("muskellunge rice", ["muskellunge", "rice", "vegetables"]),
  ("northern pike rice", ["northern pike", "rice", "vegetables"]),
  ("chain pickerel rice", ["chain pickerel", "rice", "vegetables"]),
  ("grass pickerel rice", ["grass pickerel", "rice", "vegetables"]),
  ("redfin pickerel rice", ["redfin pickerel", "rice", "vegetables"]),
  ("american pickerel rice", ["american pickerel", "rice", "vegetables"]),
  ("european pike rice", ["european pike", "rice", "vegetables"]),
  ("southern pike rice", ["southern pike", "rice", "vegetables"]),
  ("western pike rice", ["western pike", "rice", "vegetables"]),
  ("eastern pike rice", ["eastern pike", "rice", "vegetables"]),
  ("central pike rice", ["central pike", "rice", "vegetables"]),
  ("north american pike rice", ["north american pike", "rice", "vegetables"]),
  ("eurasian pike rice", ["eurasian pike", "rice", "vegetables"]),
  ("amur pike rice", ["amur pike", "rice", "vegetables"]),
  ("aquitanian pike rice", ["aquitanian pike", "rice", "vegetables"])]

/-- The separator list used to split complex meal descriptions. -/
def mealSeparators : List String :=
  [" ", ",", " and ", " with ", " in ", " on ", " topped with ", " served with "]

/-- `meal_keywords` triggering meal-component extraction. -/
def mealKeywords : List String :=
  ["breakfast", "lunch", "dinner", "meal", "plate", "dish"]

/-- `breakfast_indicators` for the full-breakfast companion rule. -/
def breakfastIndicators : List String :=
  ["sausage", "bacon", "eggs", "toast", "beans", "mushrooms", "tomato"]

/-- `meal_patterns` of `_extract_food_with_improved_matching`. -/
def mealPatterns : List (String × List String) := [
  ("breakfast", ["eggs", "bacon", "sausage", "toast", "beans", "mushrooms", "tomato", "hash browns"]),
  ("english_breakfast", ["bacon", "eggs", "sausage", "toast", "beans", "mushrooms", "tomato", "hash browns"]),
  ("full_breakfast", ["bacon", "eggs", "sausage", "toast", "beans", "mushrooms", "tomato", "hash browns"]),
  ("lunch", ["chicken", "rice", "vegetables", "salad", "bread"]),
  ("sandwich", ["bread", "meat", "cheese", "vegetables", "sauce"]),
  ("salad", ["lettuce", "tomato", "cucumber", "cheese", "dressing"]),
  ("dinner", ["meat", "potato", "vegetables", "gravy", "bread"]),
  ("steak_dinner", ["beef", "potato", "vegetables", "gravy", "bread"]),
  ("chicken_dinner", ["chicken", "rice", "vegetables", "sauce", "bread"]),
  ("pasta", ["pasta", "sauce", "cheese", "meat", "vegetables"]),
  ("spaghetti", ["spaghetti", "tomato", "cheese", "meat", "herbs"]),
  ("stir_fry", ["rice", "vegetables", "meat", "sauce", "noodles"]),
  ("curry", ["rice", "meat", "vegetables", "sauce", "bread"]),
  ("meal", ["protein", "carbohydrate", "vegetables", "sauce"]),
  ("plate", ["protein", "carbohydrate", "vegetables", "sauce"])]

/-- `breakfast_components` of `_extract_meal_components`. -/
def breakfastComponents : List (String × List String) := [
  ("english breakfast", ["bacon", "eggs", "sausage", "toast", "beans", "mushrooms", "tomato", "hash browns"]),
  ("full english", ["bacon", "eggs", "sausage", "toast", "beans", "mushrooms", "tomato", "hash browns"]),
  ("full breakfast", ["bacon", "eggs", "sausage", "toast", "beans", "mushrooms", "tomato", "hash browns"]),
  ("american breakfast", ["bacon", "eggs", "pancakes", "toast", "sausage", "hash browns"]),
  ("continental breakfast", ["bread", "cheese", "yogurt", "fruit", "cereal", "pastries"]),
  ("breakfast", ["eggs", "bacon", "toast", "cereal", "milk", "yogurt", "sausage"]),
  ("fry up", ["bacon", "eggs", "sausage", "toast", "beans", "mushrooms", "tomato", "hash browns"]),
  ("big breakfast", ["bacon", "eggs", "sausage", "toast", "beans", "hash browns", "mushrooms"]),
  ("weekend breakfast", ["bacon", "eggs", "pancakes", "waffles", "french toast", "sausage", "hash browns"]),
  ("brunch", ["eggs", "bacon", "toast", "fruit", "pastries", "coffee", "sausage"]),
  ("breakfast buffet", ["eggs", "bacon", "sausage", "toast", "cereal", "fruit", "pastries", "hash browns"]),
  ("breakfast sandwich", ["bread", "eggs", "cheese", "bacon", "sausage", "hash browns"]),
  ("breakfast burrito", ["tortilla", "eggs", "cheese", "bacon", "potato", "sausage"]),
  ("breakfast bowl", ["eggs", "rice", "vegetables", "meat", "sauce", "bacon"]),
  ("breakfast platter", ["eggs", "bacon", "sausage", "toast", "hash browns", "fruit", "mushrooms"]),
  ("sausage", ["sausage", "eggs", "bacon", "toast", "beans", "mushrooms", "tomato", "hash browns"]),
  ("bacon", ["bacon", "eggs", "sausage", "toast", "beans", "mushrooms", "tomato", "hash browns"]),
  ("eggs", ["eggs", "bacon", "sausage", "toast", "beans", "mushrooms", "tomato", "hash browns"])]

/-- `meal_components` of `_extract_meal_components`. -/
def mealComponents : List (String × List String) := [
  ("lunch", ["sandwich", "salad", "soup", "pasta", "rice", "chicken", "beef", "vegetables", "bread"]),
  ("dinner", ["steak", "chicken", "fish", "pasta", "rice", "vegetables", "salad", "potato", "gravy", "bread"]),
  ("meal", ["protein", "carbohydrate", "vegetables", "sauce", "bread"]),
  ("plate", ["protein", "carbohydrate", "vegetables", "sauce", "bread"]),
  ("dish", ["protein", "carbohydrate", "vegetables", "sauce", "bread"]),
  ("feast", ["multiple_proteins", "carbohydrates", "vegetables", "sauces", "bread"]),
  ("spread", ["multiple_proteins", "carbohydrates", "vegetables", "sauces", "bread"]),
  ("lunch special", ["sandwich", "soup", "salad", "chips", "drink", "vegetables"]),
  ("dinner special", ["entree", "side", "salad", "bread", "dessert", "vegetables", "sauce"]),
  ("meal deal", ["main", "side", "drink", "dessert", "vegetables"]),
  ("combo", ["main", "side", "drink", "vegetables", "sauce"]),
  ("platter", ["meat", "cheese", "vegetables", "bread", "dips", "sauce"]),
  ("sampler", ["multiple_small_portions", "dips", "bread", "vegetables"]),
  ("tasting", ["small_portions", "multiple_items", "sauces", "bread"]),
  ("buffet", ["multiple_proteins", "carbohydrates", "vegetables", "soups", "desserts", "bread"]),
  ("pasta", ["pasta", "sauce", "cheese", "meat", "vegetables", "herbs"]),
  ("pizza", ["dough", "cheese", "sauce", "toppings", "vegetables"]),
  ("curry", ["rice", "meat", "vegetables", "sauce", "bread", "spices"]),
  ("stir fry", ["rice", "vegetables", "meat", "sauce", "noodles"]),
  ("salad", ["lettuce", "tomato", "cucumber", "cheese", "dressing", "vegetables"]),
  ("sandwich", ["bread", "meat", "cheese", "vegetables", "sauce"]),
  ("soup", ["broth", "vegetables", "meat", "herbs", "bread"])]

/-- The fallback `food_keywords` list of `_extract_meal_components`. -/
def mealFallbackKeywords : List String := [
  "chicken", "beef", "pork", "fish", "eggs", "bacon", "sausage",
  "toast", "bread", "rice", "pasta", "vegetables", "salad", "cheese",
  "turkey", "lamb", "salmon", "tuna", "shrimp", "crab", "lobster",
  "beans", "lentils", "chickpeas", "potato", "corn", "broccoli", "spinach",
  "tomato", "cucumber", "lettuce", "onion", "mushrooms", "carrot",
  "apple", "banana", "orange", "berry", "grape", "peach", "pear",
  "milk", "yogurt", "cream", "butter", "oil", "vinegar", "herbs", "spices"]

/-- `_extract_meal_components`: breakfast table first, then generic meal
table, then keyword harvesting, with confidence-scaled truncation and
order-preserving deduplication. -/
def extractMealComponents (mealLabel : String) (conf : ℚ) : List String :=
  let components :=
    match breakfastComponents.find? (fun p => strIn p.1 mealLabel) with
    | some p =>
      if conf ≥ 0.70 then p.2.take 8
      else if conf ≥ 0.60 then p.2.take 7
      else if conf ≥ 0.50 then p.2.take 6
      else p.2.take 5
    | none =>
      match mealComponents.find? (fun p => strIn p.1 mealLabel) with
      | some p =>
        if conf ≥ 0.65 then p.2.take 6
        else if conf ≥ 0.55 then p.2.take 5
        else if conf ≥ 0.50 then p.2.take 4
        else p.2.take 3
      | none =>
        let comps := mealFallbackKeywords.filter (fun k => strIn k mealLabel)
        if conf ≥ 0.65 then comps.take 5
        else if conf ≥ 0.55 then comps.take 4
        else comps.take 3
  dedupFirst components

/-- `category_mappings` of `_match_food_categories`. -/
def categoryMappings : List (String × List String) := [
  ("meat", ["beef", "chicken", "pork", "lamb", "turkey"]),
  ("fish", ["salmon", "tuna", "cod", "tilapia"]),
  ("dairy", ["milk", "cheese", "yogurt"]),
  ("eggs", ["egg", "eggs"]),
  ("legumes", ["beans", "lentils", "chickpeas"]),
  ("nuts", ["almonds", "walnuts", "peanuts", "cashews"]),
  ("bread", ["toast", "bread", "bagel"]),
  ("vegetables", ["tomato", "mushrooms", "spinach", "broccoli"]),
  ("fruits", ["apple", "banana", "orange", "berry"])]

/-- `specific_meats` of `_match_food_categories`. -/
def specificMeats : List String :=
  ["pepperoni", "salami", "bacon", "ham", "sausage", "prosciutto", "mortadella",
   "chorizo", "kielbasa", "bratwurst"]

/-- `beef_keywords` of `_match_food_categories`. -/
def beefKeywords : List String :=
  ["beef", "steak", "burger", "hamburger", "roast beef", "ground beef", "beef steak",
   "ribeye", "sirloin", "filet", "t-bone", "porterhouse"]

/-- `_match_food_categories`: category-word fallback, with the restrictive
meat branch that only ever emits `"beef"`. -/
def matchFoodCategories (label : String) (already : List String) : List String :=
  categoryMappings.foldl
    (fun acc p =>
      if strIn p.1 label ∧ ¬ p.2.any (fun it => strIn it label) then
        if p.1 = "meat" then
          if specificMeats.any (fun m => already.contains m) then acc
          else if specificMeats.any (fun m => strIn m label) then acc
          else if ¬ beefKeywords.any (fun b => strIn b label) then acc
          else acc ++ ["beef"]
        else
          match p.2.find? (fun it => fdHasKey it) with
          | some it => acc ++ [it]
          | none => acc
      else acc) []

/-- The separator-splitting step of `_extract_food_with_improved_matching`:
for every separator occurring in the label, parts that are database keys are
appended (without duplicates). -/
def extractSeparatorStep (label : String) (foods : List String) : List String :=
  mealSeparators.foldl
    (fun acc sep =>
      if strIn sep label then
        (((label.splitOn sep).map pyStrip).filter (fun part => part ≠ "")).foldl
          (fun a part => if fdHasKey part && !a.contains part then a ++ [part] else a) acc
      else acc) foods

/-- The `complex_dish_patterns` step: every matching pattern contributes its
components (deduplicated against the accumulated list). -/
def extractPatternStep (label : String) (foods : List String) : List String :=
  complexDishPatterns.foldl
    (fun acc p => if strIn p.1 label then addNewAll acc p.2 else acc) foods

/-- The breakfast-companion step (fires at confidence ≥ 0.60 when a
breakfast indicator occurs in the label). -/
def breakfastCompanionStep (label : String) (conf : ℚ) (foods : List String) : List String :=
  if breakfastIndicators.any (fun w => strIn w label) ∧ conf ≥ 0.60 then
    let companions :=
      if strIn "sausage" label then ["eggs", "bacon", "toast", "beans"]
      else if strIn "bacon" label then ["eggs", "sausage", "toast"]
      else if strIn "eggs" label then ["bacon", "sausage", "toast"]
      else []
    addNewAll foods companions
  else foods

/-- The `meal_patterns` step: the first pattern one of whose components
occurs in the label contributes all its components at confidence ≥ 0.50. -/
def mealPatternStep (label : String) (conf : ℚ) (foods : List String) : List String :=
  match mealPatterns.find? (fun p => p.2.any (fun c => strIn c label)) with
  | some p => if conf ≥ 0.50 then addNewAll foods p.2 else foods
  | none => foods

/-- `non_food_items` skipped inside the partial-matching loop. -/
def partialNonFoodItems : List String := [
  "salt", "pepper", "black pepper", "white pepper", "salt and pepper",
  "sugar", "honey", "syrup", "oil", "olive oil", "vegetable oil",
  "vinegar", "lemon juice", "lime juice", "soy sauce", "hot sauce",
  "ketchup", "mustard", "mayonnaise", "butter", "margarine",
  "flour", "baking powder", "baking soda", "yeast", "breadcrumbs",
  "water", "ice", "steam", "smoke", "air", "dust", "dirt"]

/-- `wrap_types` of the overlapping-wrap rule. -/
def wrapTypes : List String :=
  ["wrap", "burrito", "taco", "quesadilla", "enchilada", "fajita", "shawarma", "gyro", "kebab"]

/-- `is_valid_match` of the partial-matching loop. -/
def isValidMatch (label fi : String) : Bool :=
  strIn fi label || label.startsWith (fi ++ " ") || label.endsWith (" " ++ fi) ||
  (pySplit label).contains fi || (pySplit label).any (fun w => strIn w fi) ||
  (fi.length ≥ 4 && strIn fi label)

/-- `is_not_partial_word`: no other database key extends this one. -/
def isNotPartialWord (fi : String) : Bool :=
  !((pyKeys fdProteinDB).any (fun other => other != fi && other.startsWith fi))

/-- `is_word_boundary_match` of the partial-matching loop. -/
def isWordBoundaryMatch (label fi : String) : Bool :=
  fi == label || label.startsWith (fi ++ " ") || label.endsWith (" " ++ fi) ||
  strIn (" " ++ fi ++ " ") (" " ++ label ++ " ") ||
  (pySplit label).contains fi ||
  (decide ((pySplit fi).length > 1) && (pySplit fi).all (fun w => strIn w label)) ||
  (decide ((pySplit fi).length = 1) &&
    ((pySplit label).contains fi || label.startsWith (fi ++ " ") ||
     label.endsWith (" " ++ fi) || strIn (" " ++ fi ++ " ") (" " ++ label ++ " ")))

/-- One iteration of the partial-matching loop over a database key `fi`:
the two guards, the non-food skip, the wrap-overlap rule (which may skip the
key or remove a previously added generic `"wrap"`), and the final guarded
append. -/
def partialMatchStep (label : String) (foods : List String) (fi : String) : List String :=
  if strIn fi label && decide (fi.length ≥ 3) then
    if partialNonFoodItems.contains fi then foods
    else
      let wrapped : Option (List String) :=
        if wrapTypes.contains fi then
          match foods.find? (fun e => wrapTypes.contains e && e != fi) with
          | some e =>
            if fi == "wrap" && e != "wrap" then none
            else if fi != "wrap" && e == "wrap" then some (foods.erase "wrap")
            else none
          | none => some foods
        else some foods
      match wrapped with
      | none => foods
      | some fs =>
        if isValidMatch label fi && isNotPartialWord fi && isWordBoundaryMatch label fi
            && !fs.contains fi
        then fs ++ [fi] else fs
  else foods

/-- The partial-matching loop folded over the database keys in dict order. -/
def partialMatchLoop (label : String) (foods : List String) : List String :=
  (pyKeys fdProteinDB).foldl (partialMatchStep label) foods

/-- The tail of `_extract_food_with_improved_matching` after the
composite-dish and exact-match steps: separator splitting, pattern
decomposition, the meal branch with its early return, breakfast companions,
meal patterns, the partial-matching loop, and the high-confidence category
fallback. -/
def extractTail (label : String) (conf : ℚ) (already : List String)
    (foods0 : List String) : List String :=
  let foods := extractSeparatorStep label foods0
  let foods := extractPatternStep label foods
  let isMeal := mealKeywords.any (fun k => strIn k label)
  let foods := if isMeal then foods ++ extractMealComponents label conf else foods
  if isMeal ∧ foods ≠ [] then foods
  else
    let foods := breakfastCompanionStep label conf foods
    let foods := mealPatternStep label conf foods
    let foods := partialMatchLoop label foods
    if conf ≥ 0.75 ∧ foods = [] then addNewAll foods (matchFoodCategories label already)
    else foods

/-- `_extract_food_with_improved_matching` of `food_detection.py`, in source
order: composite-dish decomposition first (setting `complex_dish_found`),
then the exact match (suppressed when a composite phrase was found),
followed by `extractTail`. -/
def extractFoods (label0 : String) (conf : ℚ) (already : List String) : List String :=
  let label := pyStrip (pyLower label0)
  let cd := complexDishMappings.find? (fun p => strIn p.1 label)
  let foods : List String :=
    match cd with
    | some p => dedupFirst p.2
    | none => []
  let foods := if fdHasKey label ∧ cd = none then foods ++ [label] else foods
  extractTail label conf already foods

/-! ## `food_detection.py`: the per-label gate of `detect_food_in_image` -/

/-- The keyword list required for medium-confidence labels (0.55–0.65). -/
def mediumConfKeywords : List String := [
  "chicken", "beef", "pork", "salmon", "rice", "pasta", "bread", "egg", "cheese", "fish",
  "meat", "vegetable", "salad", "fruit", "soup", "sandwich", "pizza", "burger", "noodle",
  "grain", "dairy", "sausage", "bacon", "toast", "beans", "mushrooms", "tomato", "breakfast",
  "hash browns", "black pudding", "white pudding", "potato", "onion", "carrot", "broccoli",
  "spinach", "lettuce", "cucumber", "pepper", "corn", "peas", "lentils", "quinoa", "oats",
  "cereal", "yogurt", "milk", "butter", "oil", "sauce", "gravy", "herbs", "spices", "garlic",
  "ginger", "curry", "stir", "fry", "roast", "grill", "bake", "steam", "boil"]

/-- The keyword list required for low-confidence labels (0.50–0.55). -/
def lowConfKeywords : List String := [
  "chicken", "beef", "pork", "salmon", "rice", "pasta", "bread", "egg", "cheese", "fish",
  "meat", "sausage", "bacon", "toast", "beans", "mushrooms", "tomato", "hash browns",
  "potato", "vegetable", "salad", "soup", "sandwich", "pizza", "burger", "noodle", "grain",
  "dairy", "fruit", "sauce", "gravy", "herbs", "spices", "curry", "stir", "fry", "roast",
  "grill", "bake"]

/-- The label-processing tiers of `detect_food_in_image`: the foods a single
already-normalised label contributes, given its confidence and the foods
detected so far.  Every tier is guarded by `_is_food_item`; labels below
0.50 are skipped. -/
def labelGateFoods (labelDesc : String) (conf : ℚ) (detected : List String) : List String :=
  if conf ≥ 0.75 then
    if isFoodItem labelDesc then extractFoods labelDesc conf detected else []
  else if conf ≥ 0.65 then
    if isFoodItem labelDesc then extractFoods labelDesc conf detected else []
  else if conf ≥ 0.55 then
    if isFoodItem labelDesc && mediumConfKeywords.any (fun k => strIn k labelDesc) then
      extractFoods labelDesc conf detected
    else []
  else if conf ≥ 0.50 then
    if isFoodItem labelDesc && lowConfKeywords.any (fun k => strIn k labelDesc) then
      extractFoods labelDesc conf detected
    else []
  else []

/-! ## `food_detection.py`: category consensus (`_apply_category_consensus`) -/

/-- The broad category of a food: first matching set of `food_categories`. -/
def foodCategoryOf (f : String) : Option String :=
  (foodCategories.find? (fun p => p.2.contains f)).map (fun p => p.1)

/-- Increment a category count, preserving first-appearance order. -/
def bumpCount (counts : List (String × ℕ)) (c : String) : List (String × ℕ) :=
  if counts.any (fun p => p.1 = c) then
    counts.map (fun p => if p.1 = c then (p.1, p.2 + 1) else p)
  else counts ++ [(c, 1)]

/-- `category_counts`: per-category counts in first-appearance order. -/
def categoryCounts (foods : List String) : List (String × ℕ) :=
  foods.foldl
    (fun counts f =>
      match foodCategoryOf f with
      | some c => bumpCount counts c
      | none => counts) []

/-- Python `max(category_counts.items(), key=...)`: the first maximal
entry. -/
def dominantCategory (foods : List String) : Option String :=
  match categoryCounts foods with
  | [] => none
  | x :: rest => some (rest.foldl (fun b y => if y.2 > b.2 then y else b) x).1

/-- The per-candidate keep decision of the consensus loop: dominant-category
candidates always, unknown-category candidates at confidence ≥ 0.60,
minority-category candidates at confidence ≥ 0.80 (missing confidences
default to 0.5). -/
def consensusKeep (dom : String) (conf : List (String × ℚ)) (f : String) : Bool :=
  let cval := pyLookupD conf f 0.5
  match foodCategoryOf f with
  | none => decide (cval ≥ 0.60)
  | some c => if c = dom then true else decide (cval ≥ 0.80)

/-- `_apply_category_consensus`: suppress minority-category outliers, but
never return an empty list — if everything is suppressed, the single
highest-confidence candidate is kept. -/
def applyCategoryConsensus (foods : List String) (conf : List (String × ℚ)) :
    List String × List (String × ℚ) :=
  if foods = [] then (foods, conf)
  else
    match dominantCategory foods with
    | none => (foods, conf)
    | some dom =>
      let kept := foods.filter (consensusKeep dom conf)
      if kept = [] then
        let top := pyMaxBy foods (fun f => pyLookupD conf f 0)
        ([top], [(top, pyLookupD conf top 0.5)])
      else (kept, kept.map (fun f => (f, pyLookupD conf f 0.5)))

/-! ## `food_detection.py`: confidence filtering
(`_enhanced_confidence_filtering`, `_is_food_compatible`) -/

/-- `protein_groups` of `_is_food_compatible`. -/
def proteinGroups : List (String × List String) := [
  ("meat", ["beef", "chicken", "pork", "lamb", "turkey", "steak", "burger"]),
  ("fish", ["salmon", "tuna", "cod", "tilapia", "shrimp", "crab", "lobster"]),
  ("dairy", ["milk", "cheese", "yogurt", "cream", "butter"]),
  ("eggs", ["egg", "eggs", "omelet", "scrambled"])]

/-- `meal_patterns` of `_is_food_compatible`. -/
def compatMealPatterns : List (String × List String) := [
  ("breakfast", ["eggs", "bacon", "sausage", "toast", "beans", "mushroom", "tomato"]),
  ("pasta_dish", ["pasta", "spaghetti", "penne", "beef", "chicken", "sauce"]),
  ("rice_dish", ["rice", "chicken", "beef", "vegetables", "curry"]),
  ("salad", ["salad", "lettuce", "cucumber", "tomato", "cheese", "chickpeas"]),
  ("sandwich", ["bread", "toast", "chicken", "beef", "cheese", "lettuce", "tomato"])]

/-- The protein-group conflict loop of `_is_food_compatible`: `some b` when
the loop returns early with `b`. -/
def compatProteinCheck (food : String) (existing : List String) : Option Bool :=
  proteinGroups.findSome?
    (fun g =>
      if g.2.contains food then
        match existing.find? (fun e => g.2.contains e && e != food) with
        | some _ =>
          if g.1 = "meat" ∧ (existing.filter (fun f => g.2.contains f)).length < 2 then
            some true
          else if g.1 = "fish" ∧ (existing.filter (fun f => g.2.contains f)).length < 2 then
            some true
          else some false
        | none => none
      else none)

/-- `_is_food_compatible`.  (After the protein-group loop, the meal-pattern
loop can only return `True`, and falling through also returns `True`.) -/
def isFoodCompatible (food : String) (existing : List String) : Bool :=
  if existing = [] then true
  else
    match compatProteinCheck food existing with
    | some b => b
    | none =>
      if compatMealPatterns.any
          (fun p => p.2.contains food ∧ (existing.filter (fun f => p.2.contains f)).length < 3)
      then true else true

/-- Stable descending sort by a rational key (Python `sort(key=…,
reverse=True)`). -/
def sortByDescQ (l : List α) (key : α → ℚ) : List α :=
  l.mergeSort (fun a b => decide (key a ≥ key b))

/-- `_enhanced_confidence_filtering`: item-count-dependent thresholds, a
top-5 cap, and a second pass that re-validates medium-confidence foods. -/
def enhancedConfidenceFiltering (detected : List String) (conf : List (String × ℚ)) :
    List String :=
  if detected = [] then []
  else
    let minConf : ℚ :=
      if detected.length ≤ 2 then 0.50 else if detected.length ≤ 4 then 0.55 else 0.60
    let highConf : ℚ :=
      if detected.length ≤ 2 then 0.70 else if detected.length ≤ 4 then 0.75 else 0.80
    let filtered := detected.filter (fun f => pyLookupD conf f 0.5 ≥ minConf)
    let filtered :=
      if filtered.length > 5 then (sortByDescQ filtered (fun f => pyLookupD conf f 0)).take 5
      else filtered
    filtered.foldl
      (fun smart f =>
        let c := pyLookupD conf f 0.5
        if c ≥ highConf then smart ++ [f]
        else if c ≥ minConf then
          if ¬ isFoodItem f then smart
          else if isFoodCompatible f smart then smart ++ [f]
          else smart
        else smart) []

/-! ## `food_detection.py`: `_filter_and_prioritize_foods` -/

/-- Stable descending sort by a natural-number key. -/
def sortByDescN (l : List α) (key : α → ℕ) : List α :=
  l.mergeSort (fun a b => decide (key a ≥ key b))

/-- `complex_dish_patterns` of `_filter_and_prioritize_foods`. -/
def filterDishPatterns : List (String × List String) := [
  ("pasta_with_meat", ["pasta", "spaghetti", "penne", "fettuccine", "lasagna", "rigatoni"]),
  ("pasta_with_sauce", ["pasta", "spaghetti", "penne", "fettuccine", "lasagna", "rigatoni"]),
  ("rice_with_meat", ["rice", "white rice", "brown rice", "jasmine rice", "basmati rice"]),
  ("rice_with_vegetables", ["rice", "white rice", "brown rice", "jasmine rice", "basmati rice"]),
  ("sandwich", ["bread", "toast", "bagel", "english muffin", "bun", "roll"]),
  ("wrap", ["wrap", "tortilla", "pita", "flatbread", "naan", "roti"]),
  ("pizza", ["pizza", "pepperoni", "margherita", "cheese pizza"]),
  ("salad", ["salad", "lettuce", "greens", "vegetables", "cucumber", "tomato"]),
  ("breakfast", ["egg", "eggs", "bacon", "sausage", "toast", "hash browns", "beans"]),
  ("soup", ["soup", "stew", "broth", "beans", "vegetables", "meat"])]

/-- The generic non-food words dropped in steps 1 and 7. -/
def filterGenericWords : List String :=
  ["food", "meal", "dish", "plate", "bowl", "serving"]

/-- The dish-pattern selection of `_filter_and_prioritize_foods` once the
best (most-populated) pattern is known; `scored` is sorted by descending
score. -/
def pickPatternFoods (best : String × List String × ℕ) (scored : List (String × ℚ × ℚ)) :
    List String :=
  let names := scored.map (fun t => t.1)
  if best.1 = "pasta_with_meat" then
    let pastaItems := names.filter (fun f => ["pasta", "spaghetti", "penne", "fettuccine", "lasagna"].contains f)
    let meatItems := names.filter (fun f => ["beef", "ground beef", "meat", "mince"].contains f)
    match pastaItems, meatItems with
    | p :: _, m :: _ => [p, m]
    | p :: _, [] => [p]
    | [], _ => names.take 1
  else if best.1 = "rice_with_meat" then
    let riceItems := names.filter (fun f => ["rice", "white rice", "brown rice", "jasmine rice"].contains f)
    let meatItems := names.filter (fun f => ["chicken", "beef", "pork", "fish", "shrimp"].contains f)
    match riceItems, meatItems with
    | r :: _, m :: _ => [m, r]
    | _, m :: _ => [m]
    | _, [] => names.take 1
  else if best.1 = "breakfast" then
    (names.filter (fun f =>
      ["egg", "eggs", "bacon", "sausage", "toast", "beans", "mushroom", "tomato"].contains f)).take 3
  else if best.1 = "salad" then
    (names.filter (fun f =>
      ["salad", "lettuce", "greens", "cucumber", "tomato", "chickpeas", "cheese"].contains f)).take 2
  else if best.1 = "pizza" then
    (names.filter (fun f => ["pizza", "pepperoni", "cheese"].contains f)).take 2
  else
    (names.filter (fun f => best.2.1.contains f)).take 3

/-- `_filter_and_prioritize_foods`: clean, score by confidence plus a
protein boost, sort, detect dish patterns, select final foods, and cap at
three items. -/
def filterAndPrioritizeFoods (foods : List String) (conf : List (String × ℚ)) :
    List String :=
  if foods = [] then []
  else
    let cleaned :=
      (foods.map (fun f => pyStrip (pyLower f))).filter
        (fun f => ¬ filterGenericWords.contains f)
    if cleaned = [] then []
    else
      let scored : List (String × ℚ × ℚ) :=
        cleaned.map (fun f =>
          let c := pyLookupD conf f 0.5
          let p := pyLookupD fdProteinDB f 5.0
          (f, c + min (p / 50) 0.3, p))
      let scored := sortByDescQ scored (fun t => t.2.1)
      let detectedPatterns : List (String × List String × ℕ) :=
        filterDishPatterns.filterMap
          (fun pat =>
            let matched := (scored.map (fun t => t.1)).filter (fun f => pat.2.contains f)
            if matched.length ≥ 2 then some (pat.1, matched, matched.length) else none)
      let finalFoods :=
        match sortByDescN detectedPatterns (fun t => t.2.2) with
        | best :: _ => pickPatternFoods best scored
        | [] =>
          match scored with
          | [] => []
          | (f, _, p) :: _ =>
            if scored.length = 1 then [f]
            else if p < 10 then
              match (scored.filter (fun (t : String × ℚ × ℚ) => t.2.2 > 15)).map
                  (fun (t : String × ℚ × ℚ) => t.1) with
              | [] => [f]
              | pf :: _ => [f, pf]
            else [f]
      let validated :=
        finalFoods.filter
          (fun f => ¬ (filterGenericWords ++ ["sauce", "gravy", "dressing"]).contains f)
      validated.take 3

/-! ## `food_detection.py`: `_canonicalize_food_list` -/

/-- The canonicalisation `mapping` dict (duplicate keys — e.g. `"roast
beef"` and the repeated creatine entries — are kept; `pyLookup` recovers
Python's last-binding-wins reads). -/
def canonMapping : List (String × String) := [
  ("burger", "hamburger"),
  ("beefburger", "hamburger"),
  ("prawns", "shrimp"),
  ("fries", "potato"),
  ("chips", "chips"),
  ("cheese pizza", "pizza"),
  ("wraps", "wrap"),
  ("eggs", "eggs"),
  ("egg", "eggs"),
  ("veggies", "vegetables"),
  ("steak", "beef"),
  ("ground beef", "beef"),
  ("mince", "beef"),
  ("roast beef", "beef"),
  ("beef steak", "beef"),
  ("ribeye", "beef"),
  ("sirloin", "beef"),
  ("filet", "beef"),
  ("t-bone", "beef"),
  ("porterhouse", "beef"),
  ("chicken breast", "chicken"),
  ("chicken thigh", "chicken"),
  ("chicken wing", "chicken"),
  ("chicken leg", "chicken"),
  ("chicken drumstick", "chicken"),
  ("pork chop", "pork"),
  ("pork loin", "pork"),
  ("pork shoulder", "pork"),
  ("pork belly", "pork"),
  ("lamb chop", "lamb"),
  ("lamb shank", "lamb"),
  ("lamb shoulder", "lamb"),
  ("lamb leg", "lamb"),
  ("turkey breast", "turkey"),
  ("turkey thigh", "turkey"),
  ("turkey wing", "turkey"),
  ("turkey leg", "turkey"),
  ("salmon fillet", "salmon"),
  ("salmon steak", "salmon"),
  ("tuna steak", "tuna"),
  ("tuna fillet", "tuna"),
  ("cod fillet", "cod"),
  ("tilapia fillet", "tilapia"),
  ("shrimp", "shrimp"),
  ("prawn", "shrimp"),
  ("crab meat", "crab"),
  ("lobster meat", "lobster"),
  ("white rice", "rice"),
  ("brown rice", "rice"),
  ("jasmine rice", "rice"),
  ("basmati rice", "rice"),
  ("long grain rice", "rice"),
  ("short grain rice", "rice"),
  ("spaghetti", "pasta"),
  ("penne", "pasta"),
  ("fettuccine", "pasta"),
  ("lasagna", "pasta"),
  ("rigatoni", "pasta"),
  ("macaroni", "pasta"),
  ("farfalle", "pasta"),
  ("fusilli", "pasta"),
  ("rotini", "pasta"),
  ("orecchiette", "pasta"),
  ("ravioli", "pasta"),
  ("tortellini", "pasta"),
  ("bread", "bread"),
  ("toast", "toast"),
  ("bagel", "bagel"),
  ("english muffin", "english muffin"),
  ("bun", "bread"),
  ("roll", "bread"),
  ("croissant", "croissant"),
  ("danish", "danish"),
  ("donut", "donut"),
  ("muffin", "muffin"),
  ("scone", "scone"),
  ("biscuit", "biscuit"),
  ("pancake", "pancakes"),
  ("waffle", "waffles"),
  ("crepe", "crepes"),
  ("french toast", "french toast"),
  ("oatmeal", "oatmeal"),
  ("porridge", "porridge"),
  ("cereal", "cereal"),
  ("granola", "granola"),
  ("muesli", "muesli"),
  ("cream of wheat", "cream of wheat"),
  ("farina", "farina"),
  ("yogurt", "yogurt"),
  ("greek yogurt", "greek yogurt"),
  ("cottage cheese", "cottage cheese"),
  ("milk", "milk"),
  ("cheese", "cheese"),
  ("cream", "cream"),
  ("butter", "butter"),
  ("bacon", "bacon"),
  ("ham", "ham"),
  ("sausage", "sausage"),
  ("pepperoni", "pepperoni"),
  ("salami", "salami"),
  ("prosciutto", "prosciutto"),
  ("mortadella", "mortadella"),
  ("bologna", "bologna"),
  ("pastrami", "pastrami"),
  ("corned beef", "corned beef"),
  ("roast beef", "roast beef"),
  ("jerky", "jerky"),
  ("beef jerky", "beef jerky"),
  ("turkey jerky", "turkey jerky"),
  ("salad", "salad"),
  ("lettuce", "lettuce"),
  ("greens", "salad"),
  ("spinach", "spinach"),
  ("broccoli", "broccoli"),
  ("carrot", "carrot"),
  ("potato", "potato"),
  ("tomato", "tomato"),
  ("cucumber", "cucumber"),
  ("onion", "onion"),
  ("mushrooms", "mushrooms"),
  ("corn", "corn"),
  ("beans", "beans"),
  ("lentils", "lentils"),
  ("chickpeas", "chickpeas"),
  ("peas", "peas"),
  ("apple", "apple"),
  ("banana", "banana"),
  ("orange", "orange"),
  ("berry", "berry"),
  ("grape", "grape"),
  ("peach", "peach"),
  ("pear", "pear"),
  ("strawberry", "strawberry"),
  ("blueberry", "blueberry"),
  ("raspberry", "raspberry"),
  ("blackberry", "blackberry"),
  ("cherry", "cherry"),
  ("pineapple", "pineapple"),
  ("mango", "mango"),
  ("kiwi", "kiwi"),
  ("lemon", "lemon"),
  ("lime", "lime"),
  ("avocado", "avocado"),
  ("olive", "olive"),
  ("pickle", "pickle"),
  ("sauerkraut", "sauerkraut"),
  ("kimchi", "kimchi"),
  ("salsa", "salsa"),
  ("guacamole", "guacamole"),
  ("hummus", "hummus"),
  ("dip", "dip"),
  ("spread", "spread"),
  ("sauce", "sauce"),
  ("gravy", "gravy"),
  ("dressing", "dressing"),
  ("marinade", "marinade"),
  ("rub", "rub"),
  ("seasoning", "seasoning"),
  ("spice", "spice"),
  ("herb", "herb"),
  ("garlic", "garlic"),
  ("ginger", "ginger"),
  ("curry", "curry"),
  ("paprika", "paprika"),
  ("cumin", "cumin"),
  ("coriander", "coriander"),
  ("turmeric", "turmeric"),
  ("oregano", "oregano"),
  ("basil", "basil"),
  ("thyme", "thyme"),
  ("rosemary", "rosemary"),
  ("sage", "sage"),
  ("parsley", "parsley"),
  ("cilantro", "cilantro"),
  ("mint", "mint"),
  ("dill", "dill"),
  ("bay leaf", "bay leaf"),
  ("nutmeg", "nutmeg"),
  ("cinnamon", "cinnamon"),
  ("cloves", "cloves"),
  ("allspice", "allspice"),
  ("cardamom", "cardamom"),
  ("star anise", "star anise"),
  ("fennel", "fennel"),
  ("caraway", "caraway"),
  ("poppy seed", "poppy seed"),
  ("sesame seed", "sesame seed"),
  ("sunflower seed", "sunflower seed"),
  ("pumpkin seed", "pumpkin seed"),
  ("chia seed", "chia seed"),
  ("flax seed", "flax seed"),
  ("hemp seed", "hemp seed"),
  ("quinoa", "quinoa"),
  ("buckwheat", "buckwheat"),
  ("millet", "millet"),
  ("sorghum", "sorghum"),
  ("teff", "teff"),
  ("amaranth", "amaranth"),
  ("spelt", "spelt"),
  ("kamut", "kamut"),
  ("farro", "farro"),
  ("bulgur", "bulgur"),
  ("couscous", "couscous"),
  ("polenta", "polenta"),
  ("grits", "grits"),
  ("cornmeal", "cornmeal"),
  ("semolina", "semolina"),
  ("durum", "durum"),
  ("whole wheat", "whole wheat"),
  ("rye", "rye"),
  ("barley", "barley"),
  ("oats", "oats"),
  ("wheat", "wheat"),
  ("flour", "flour"),
  ("bread flour", "flour"),
  ("all purpose flour", "flour"),
  ("cake flour", "flour"),
  ("pastry flour", "flour"),
  ("self rising flour", "flour"),
  ("whole wheat flour", "flour"),
  ("rye flour", "flour"),
  ("buckwheat flour", "flour"),
  ("almond flour", "flour"),
  ("coconut flour", "flour"),
  ("chickpea flour", "flour"),
  ("rice flour", "flour"),
  ("potato flour", "flour"),
  ("tapioca flour", "flour"),
  ("arrowroot flour", "flour"),
  ("xanthan gum", "xanthan gum"),
  ("guar gum", "guar gum"),
  ("agar agar", "agar agar"),
  ("gelatin", "gelatin"),
  ("pectin", "pectin"),
  ("lecithin", "lecithin"),
  ("yeast", "yeast"),
  ("baking powder", "baking powder"),
  ("baking soda", "baking soda"),
  ("cream of tartar", "cream of tartar"),
  ("vanilla", "vanilla"),
  ("vanilla extract", "vanilla"),
  ("almond extract", "almond extract"),
  ("lemon extract", "lemon extract"),
  ("orange extract", "orange extract"),
  ("peppermint extract", "peppermint extract"),
  ("food coloring", "food coloring"),
  ("preservatives", "preservatives"),
  ("additives", "additives"),
  ("artificial sweetener", "artificial sweetener"),
  ("natural sweetener", "natural sweetener"),
  ("stevia", "stevia"),
  ("agave", "agave"),
  ("maple syrup", "maple syrup"),
  ("molasses", "molasses"),
  ("brown sugar", "brown sugar"),
  ("white sugar", "sugar"),
  ("powdered sugar", "powdered sugar"),
  ("turbinado sugar", "turbinado sugar"),
  ("demerara sugar", "demerara sugar"),
  ("muscovado sugar", "muscovado sugar"),
  ("palm sugar", "palm sugar"),
  ("coconut sugar", "coconut sugar"),
  ("date sugar", "date sugar"),
  ("fruit sugar", "fruit sugar"),
  ("corn syrup", "corn syrup"),
  ("high fructose corn syrup", "high fructose corn syrup"),
  ("invert sugar", "invert sugar"),
  ("lactose", "lactose"),
  ("maltose", "maltose"),
  ("dextrose", "dextrose"),
  ("fructose", "fructose"),
  ("glucose", "glucose"),
  ("sucrose", "sucrose"),
  ("maltodextrin", "maltodextrin"),
  ("polydextrose", "polydextrose"),
  ("sorbitol", "sorbitol"),
  ("xylitol", "xylitol"),
  ("erythritol", "erythritol"),
  ("mannitol", "mannitol"),
  ("isomalt", "isomalt"),
  ("lactitol", "lactitol"),
  ("maltitol", "maltitol"),
  ("hydrogenated oil", "hydrogenated oil"),
  ("partially hydrogenated oil", "partially hydrogenated oil"),
  ("trans fat", "trans fat"),
  ("saturated fat", "saturated fat"),
  ("unsaturated fat", "unsaturated fat"),
  ("monounsaturated fat", "monounsaturated fat"),
  ("polyunsaturated fat", "polyunsaturated fat"),
  ("omega 3", "omega 3"),
  ("omega 6", "omega 6"),
  ("omega 9", "omega 9"),
  ("essential fatty acids", "essential fatty acids"),
  ("linoleic acid", "linoleic acid"),
  ("alpha linolenic acid", "alpha linolenic acid"),
  ("arachidonic acid", "arachidonic acid"),
  ("docosahexaenoic acid", "docosahexaenoic acid"),
  ("eicosapentaenoic acid", "eicosapentaenoic acid"),
  ("gamma linolenic acid", "gamma linolenic acid"),
  ("conjugated linoleic acid", "conjugated linoleic acid"),
  ("medium chain triglycerides", "medium chain triglycerides"),
  ("short chain fatty acids", "short chain fatty acids"),
  ("long chain fatty acids", "long chain fatty acids"),
  ("triglycerides", "triglycerides"),
  ("phospholipids", "phospholipids"),
  ("sterols", "sterols"),
  ("cholesterol", "cholesterol"),
  ("phytosterols", "phytosterols"),
  ("stanols", "stanols"),
  ("squalene", "squalene"),
  ("coenzyme q10", "coenzyme q10"),
  ("ubiquinone", "ubiquinone"),
  ("carnitine", "carnitine"),
  ("acetyl l carnitine", "acetyl l carnitine"),
  ("propionyl l carnitine", "propionyl l carnitine"),
  ("l carnitine", "l carnitine"),
  ("creatine", "creatine"),
  ("creatine monohydrate", "creatine"),
  ("creatine ethyl ester", "creatine"),
  ("creatine hydrochloride", "creatine"),
  ("creatine citrate", "creatine"),
  ("creatine malate", "creatine"),
  ("creatine pyruvate", "creatine"),
  ("creatine alpha ketoglutarate", "creatine"),
  ("creatine orotate", "creatine"),
  ("creatine gluconate", "creatine"),
  ("creatine phosphate", "creatine"),
  ("creatine sulfate", "creatine"),
  ("creatine nitrate", "creatine"),
  ("creatine acetate", "creatine"),
  ("creatine fumarate", "creatine"),
  ("creatine succinate", "creatine"),
  ("creatine aspartate", "creatine"),
  ("creatine taurinate", "creatine"),
  ("creatine orotate", "creatine"),
  ("creatine gluconate", "creatine"),
  ("creatine phosphate", "creatine"),
  ("creatine sulfate", "creatine"),
  ("creatine nitrate", "creatine"),
  ("creatine acetate", "creatine"),
  ("creatine fumarate", "creatine"),
  ("creatine succinate", "creatine"),
  ("creatine aspartate", "creatine"),
  ("creatine taurinate", "creatine")]

/-- The canonicalisation loop: map, fall back to the original key when the
mapped name is unknown, keep only database-known names without duplicates,
and stop once five have been collected. -/
def canonLoop : List String → List String → List String
  | [], canonical => canonical
  | item :: rest, canonical =>
    let key := pyStrip (pyLower item)
    let mapped := pyLookupD canonMapping key key
    let finalItem := if fdHasKey mapped then mapped else key
    let canonical :=
      if ¬ canonical.contains finalItem ∧ fdHasKey finalItem then canonical ++ [finalItem]
      else canonical
    if canonical.length ≥ 5 then canonical else canonLoop rest canonical

/-- `_canonicalize_food_list`. -/
def canonicalizeFoodList (foods : List String) : List String :=
  if foods = [] then [] else canonLoop foods []

/-! ## `food_detection.py`: protein-content calculation and validation -/

/-- The `protein_limits` table of `_validate_protein_content`, with its 25 g
default for item counts outside 1–6. -/
def proteinLimit (n : ℕ) : ℚ :=
  if n = 1 then 25.0
  else if n = 2 then 22.0
  else if n = 3 then 20.0
  else if n = 4 then 18.0
  else if n = 5 then 16.0
  else if n = 6 then 15.0
  else 25.0

/-- `_validate_protein_content`: cap the computed protein at the per-meal
limit for the item count. -/
def validateProteinContent (calculated : ℚ) (numFoods : ℕ) : ℚ :=
  if calculated > proteinLimit numFoods then proteinLimit numFoods else calculated

/-- `_get_total_plate_weight`. -/
def getTotalPlateWeight (numFoods : ℕ) : ℚ :=
  if numFoods ≤ 1 then 120.0
  else if numFoods = 2 then 200.0
  else if numFoods = 3 then 300.0
  else if numFoods = 4 then 350.0
  else if numFoods = 5 then 400.0
  else 500.0

/-- Priority lists of `_get_adjusted_portion_for_plate`. -/
def highPriorityFoods : List String :=
  ["chicken", "beef", "pork", "salmon", "tuna", "eggs", "tofu", "beans"]

/-- Medium-priority (carb) foods of `_get_adjusted_portion_for_plate`. -/
def mediumPriorityFoods : List String :=
  ["rice", "pasta", "quinoa", "bread", "toast", "wrap", "pizza"]

/-- `_get_adjusted_portion_for_plate`. -/
def getAdjustedPortionForPlate (food : String) (allFoods : List String) (total : ℚ) : ℚ :=
  let n := allFoods.length
  if n = 2 then total / 2
  else if n = 3 then
    if highPriorityFoods.contains food then total * 0.40
    else if mediumPriorityFoods.contains food then total * 0.40
    else total * 0.20
  else if n = 4 then
    if highPriorityFoods.contains food then total * 0.35
    else if mediumPriorityFoods.contains food then total * 0.35
    else total * 0.30 / max 1
      ((allFoods.filter (fun f =>
        ¬ highPriorityFoods.contains f ∧ ¬ mediumPriorityFoods.contains f)).length : ℚ)
  else
    if highPriorityFoods.contains food then
      total * 0.30 / max 1 ((allFoods.filter (fun f => highPriorityFoods.contains f)).length : ℚ)
    else if mediumPriorityFoods.contains food then
      total * 0.30 / max 1 ((allFoods.filter (fun f => mediumPriorityFoods.contains f)).length : ℚ)
    else
      total * 0.40 / max 1
        ((allFoods.filter (fun f =>
          ¬ highPriorityFoods.contains f ∧ ¬ mediumPriorityFoods.contains f)).length : ℚ)

/-- `calculate_protein_content` of `food_detection.py`: fixed 120 g portion
for a single item, 100 g each for two, plate-weight-distributed portions for
three or more; the computed total is always passed through
`_validate_protein_content` and rounded to one decimal. -/
def calculateProteinContent (foods : List String) : ℚ :=
  match foods with
  | [] => 0
  | [food] =>
    round1 (validateProteinContent (pyLookupD fdProteinDB food 5.0 * 120.0 / 100) 1)
  | _ =>
    if foods.length = 2 then
      round1 (validateProteinContent
        (foods.foldl (fun t f => t + pyLookupD fdProteinDB f 5.0 * 100.0 / 100) 0) foods.length)
    else
      let total := getTotalPlateWeight foods.length
      round1 (validateProteinContent
        (foods.foldl
          (fun t f =>
            t + pyLookupD fdProteinDB f 5.0 * getAdjustedPortionForPlate f foods total / 100)
          0) foods.length)

/-- The post-detection filtering chain of `detect_food_in_image`: category
consensus, enhanced confidence filtering, prioritisation, and
canonicalisation. -/
def fullFilterChain (foods : List String) (conf : List (String × ℚ)) : List String :=
  let consensus := applyCategoryConsensus foods conf
  let filtered := enhancedConfidenceFiltering consensus.1 consensus.2
  let prioritized := filterAndPrioritizeFoods filtered consensus.2
  canonicalizeFoodList prioritized

/-! ## Spec-side definitions (for refinement comparison)

These two definitions follow the wording of spec §4.4 (“Output:
`(total_protein_g, total_calories)`, each `round(Σ(per_100g_value * grams /
100), 1)`”, with unmatched names falling back to the keyword-heuristic
estimate) rather than the code, so that the aggregator can be compared
against them. -/

/-- Spec §4.4: the per-100g protein value of a canonical name — the
Nutrition Table entry, or the keyword-heuristic estimate when missing. -/
def specPer100Protein (f : String) : ℚ :=
  pyLookupD mainProteinDB f (estimateProteinFromFoodName f)

/-- Spec §4.4: the per-100g calorie value of a canonical name. -/
def specPer100Calories (f : String) : ℚ :=
  pyLookupD mainCalorieDB f (estimateCaloriesFromFoodName f)

/-- Spec §4.4: `round(Σ(per_100g_value * grams / 100), 1)`. -/
def specAggregate (per100 grams : String → ℚ) (foods : List String) : ℚ :=
  round1 ((foods.map (fun f => per100 f * grams f / 100)).sum)

/-! # Helper lemmas -/

theorem mem_addNew {xs : List String} {x : String} (y : String) (h : x ∈ xs) :
    x ∈ addNew xs y := by
  unfold addNew
  split
  · exact h
  · exact List.mem_append_left _ h

theorem mem_addNewAll {xs : List String} {x : String} (l : List String) (h : x ∈ xs) :
    x ∈ addNewAll xs l := by
  unfold addNewAll
  induction l generalizing xs with
  | nil => exact h
  | cons y ys ih => exact ih (mem_addNew y h)

theorem foldl_pair_accumulates (portions : List (String × ℚ)) (l : List String) (a b : ℚ) :
    l.foldl
        (fun (acc : ℚ × ℚ) f =>
          let fl := pyStrip (pyLower f)
          let grams := pyLookupD portions f 0
          let p := pyLookupD mainProteinDB fl (estimateProteinFromFoodName fl)
          let c := pyLookupD mainCalorieDB fl (estimateCaloriesFromFoodName fl)
          (acc.1 + p * grams / 100, acc.2 + c * grams / 100)) (a, b)
      = (a + (l.map (fun f =>
            specPer100Protein (pyStrip (pyLower f)) * pyLookupD portions f 0 / 100)).sum,
         b + (l.map (fun f =>
            specPer100Calories (pyStrip (pyLower f)) * pyLookupD portions f 0 / 100)).sum) := by
  induction l generalizing a b with
  | nil => simp
  | cons x xs ih =>
    simp only [List.foldl_cons, List.map_cons, List.sum_cons, ih,
      specPer100Protein, specPer100Calories, Prod.mk.injEq]
    constructor <;> ring

/-- C5: the portion-based aggregation of `upload_meal` computes exactly the
spec's formula `round(Σ(per_100g_value * grams / 100), 1)` for protein and
calories, where a name missing from the tables takes its keyword-heuristic
estimate; the computation is total, so aggregation never fails. -/
theorem aggregator_matches_spec_formula (foods : List String)
    (portions : List (String × ℚ)) :
    (uploadTotalsFromPortions foods portions).1
        = specAggregate (fun f => specPer100Protein (pyStrip (pyLower f)))
            (fun f => pyLookupD portions f 0) foods
    ∧ (uploadTotalsFromPortions foods portions).2
        = specAggregate (fun f => specPer100Calories (pyStrip (pyLower f)))
            (fun f => pyLookupD portions f 0) foods := by
  unfold uploadTotalsFromPortions specAggregate
  rw [foldl_pair_accumulates]
  simp

/-- C7 counterexample: a non-empty candidate list for which the full
filtering chain of `detect_food_in_image` — consensus, confidence
filtering, prioritisation, canonicalisation — returns the empty list: a
lone `"pasta"` at confidence 0.40 survives consensus (it is the dominant
category) but is dropped by the 0.50 minimum-confidence filter, and no
fallback reinstates it. -/
theorem filter_chain_empty_counterexample :
    fullFilterChain ["pasta"] [("pasta", 0.4)] = [] ∧ (["pasta"] : List String) ≠ [] := by
  refine ⟨by with_unfolding_all rfl, by decide⟩

/-- C7 (amended): only the consensus step guarantees non-emptiness — when
its filtering would remove every candidate it retains the single
highest-confidence one, so `_apply_category_consensus` never maps a
non-empty candidate list to an empty one. -/
theorem consensus_preserves_nonempty (foods : List String) (conf : List (String × ℚ))
    (h : foods ≠ []) :
    (applyCategoryConsensus foods conf).1 ≠ [] := by
  unfold applyCategoryConsensus
  rw [if_neg h]
  cases hdom : dominantCategory foods with
  | none => exact h
  | some dom =>
    simp only
    split
    · simp
    · rename_i hkept
      exact hkept

/-- C7 witness: the consensus step keeps the lone low-confidence pasta. -/
theorem consensus_preserves_nonempty_witness :
    (applyCategoryConsensus ["pasta"] [("pasta", 0.4)]).1 ≠ [] :=
  consensus_preserves_nonempty ["pasta"] [("pasta", 0.4)] (by decide)

/-- C8: any label containing a word of the fixed non-food deny-list is
rejected by `_is_food_item`, and therefore contributes no food candidates
at any confidence tier of the label-processing loop. -/
theorem deny_list_rejects_label (labelDesc : String) (conf : ℚ) (detected : List String)
    (h : (nonFoodKeywords.any
        (fun c => c.2.any (fun kw => strIn kw (pyStrip (pyLower labelDesc))))) = true) :
    isFoodItem labelDesc = false ∧ labelGateFoods labelDesc conf detected = [] := by
  have hfood : isFoodItem labelDesc = false := by
    simp [isFoodItem, h]
  refine ⟨hfood, ?_⟩
  unfold labelGateFoods
  split_ifs <;> simp_all

/-- C8 witness: the label `"plate"` at confidence 0.99 is rejected. -/
theorem deny_list_rejects_label_witness :
    isFoodItem "plate" = false ∧ labelGateFoods "plate" 0.99 [] = [] :=
  deny_list_rejects_label "plate" 0.99 [] (by decide)

theorem proteinLimit_le_25 (n : ℕ) : proteinLimit n ≤ 25 := by
  unfold proteinLimit
  split_ifs <;> norm_num

theorem validateProteinContent_le (p : ℚ) (n : ℕ) :
    validateProteinContent p n ≤ proteinLimit n := by
  unfold validateProteinContent
  split_ifs with h
  · exact le_refl _
  · exact le_of_not_lt h

theorem round1_le_25 {x : ℚ} (hx : x ≤ 25) : round1 x ≤ 25 := by
  unfold round1
  have h1 : x * 10 + 1 / 2 ≤ (501 : ℚ) / 2 := by linarith
  have h2 : round (x * 10) ≤ 250 := by
    rw [round_eq]
    have hf : ⌊x * 10 + 1 / 2⌋ ≤ ⌊(501 : ℚ) / 2⌋ := Int.floor_le_floor h1
    have : ⌊(501 : ℚ) / 2⌋ = 250 := by
      rw [Int.floor_eq_iff]
      norm_num
    omega
  have h3 : ((round (x * 10) : ℤ) : ℚ) ≤ 250 := by exact_mod_cast h2
  linarith

/-- C9: `calculate_protein_content` never exceeds 25 g: the total always
passes through `_validate_protein_content`, which caps it at a per-meal
limit of 25/22/20/18/16/15 g for 1–6 items and falls back to 25 g for
seven or more items. -/
theorem protein_capped_at_25 (foods : List String) (p : ℚ) (n : ℕ) :
    calculateProteinContent foods ≤ 25
    ∧ validateProteinContent p n = min p (proteinLimit n)
    ∧ proteinLimit 1 = 25 ∧ proteinLimit 2 = 22 ∧ proteinLimit 3 = 20
    ∧ proteinLimit 4 = 18 ∧ proteinLimit 5 = 16 ∧ proteinLimit 6 = 15
    ∧ (7 ≤ n → proteinLimit n = 25) := by
  refine ⟨?_, ?_, by norm_num [proteinLimit], by norm_num [proteinLimit],
    by norm_num [proteinLimit], by norm_num [proteinLimit], by norm_num [proteinLimit],
    by norm_num [proteinLimit], ?_⟩
  · have cap : ∀ (t : ℚ) (m : ℕ), round1 (validateProteinContent t m) ≤ 25 := by
      intro t m
      exact round1_le_25 ((validateProteinContent_le t m).trans (proteinLimit_le_25 m))
    rcases foods with _ | ⟨f, _ | ⟨g, rest⟩⟩
    · simp [calculateProteinContent]
    · exact cap _ _
    · simp only [calculateProteinContent]
      split_ifs <;> exact cap _ _
  · unfold validateProteinContent
    rcases le_or_lt p (proteinLimit n) with h | h
    · rw [if_neg (not_lt.mpr h), min_eq_left h]
    · rw [if_pos h, min_eq_right h.le]
  · intro h7
    unfold proteinLimit
    split_ifs <;> first | omega | norm_num

/-- C9 witness: a concrete instance — one item is capped at 25 g and the
seven-item limit falls back to 25 g. -/
theorem protein_capped_at_25_witness :
    calculateProteinContent ["chicken breast"] ≤ 25 ∧ proteinLimit 7 = 25 :=
  ⟨(protein_capped_at_25 ["chicken breast"] 0 7).1,
   (protein_capped_at_25 ["chicken breast"] 0 7).2.2.2.2.2.2.2.2 (by norm_num)⟩

theorem mem_foldl_of_mem_step {β : Type} {x : String} (step : List String → β → List String)
    (hstep : ∀ acc b, x ∈ acc → x ∈ step acc b) :
    ∀ (l : List β) (acc : List String), x ∈ acc → x ∈ l.foldl step acc := by
  intro l
  induction l with
  | nil => intro acc h; exact h
  | cons b bs ih => intro acc h; exact ih _ (hstep acc b h)

theorem mem_extractSeparatorStep {label x : String} {foods : List String} (h : x ∈ foods) :
    x ∈ extractSeparatorStep label foods := by
  unfold extractSeparatorStep
  refine mem_foldl_of_mem_step _ ?_ _ _ h
  intro acc sep hacc
  split
  · refine mem_foldl_of_mem_step _ ?_ _ _ hacc
    intro a part ha
    split
    · exact List.mem_append_left _ ha
    · exact ha
  · exact hacc

theorem mem_extractPatternStep {label x : String} {foods : List String} (h : x ∈ foods) :
    x ∈ extractPatternStep label foods := by
  unfold extractPatternStep
  refine mem_foldl_of_mem_step _ ?_ _ _ h
  intro acc p hacc
  split
  · exact mem_addNewAll _ hacc
  · exact hacc

theorem mem_breakfastCompanionStep {label x : String} {conf : ℚ} {foods : List String}
    (h : x ∈ foods) : x ∈ breakfastCompanionStep label conf foods := by
  unfold breakfastCompanionStep
  split
  · exact mem_addNewAll _ h
  · exact h

theorem mem_mealPatternStep {label x : String} {conf : ℚ} {foods : List String}
    (h : x ∈ foods) : x ∈ mealPatternStep label conf foods := by
  unfold mealPatternStep
  split
  · split
    · exact mem_addNewAll _ h
    · exact h
  · exact h

theorem mem_partialMatchStep {label x fi : String} {foods : List String}
    (hx : x ∈ foods) (hw : x ≠ "wrap") : x ∈ partialMatchStep label foods fi := by
  unfold partialMatchStep
  split
  swap
  · exact hx
  split
  · exact hx
  have key : ∀ (w : Option (List String)), (∀ fs, w = some fs → x ∈ fs) →
      x ∈ (match w with
           | none => foods
           | some fs =>
             if (isValidMatch label fi && isNotPartialWord fi && isWordBoundaryMatch label fi
                 && !fs.contains fi) = true then fs ++ [fi] else fs) := by
    intro w hne
    cases w with
    | none => exact hx
    | some fs =>
      have hfs := hne fs rfl
      dsimp only
      split
      · exact List.mem_append_left _ hfs
      · exact hfs
  apply key
  intro fs hfs
  split at hfs
  · split at hfs
    · split at hfs
      · exact absurd hfs (by simp)
      · split at hfs
        · cases hfs
          exact (List.mem_erase_of_ne hw).mpr hx
        · exact absurd hfs (by simp)
    · cases hfs
      exact hx
  · cases hfs
    exact hx

theorem mem_partialMatchLoop {label x : String} {foods : List String}
    (hx : x ∈ foods) (hw : x ≠ "wrap") : x ∈ partialMatchLoop label foods := by
  unfold partialMatchLoop
  exact mem_foldl_of_mem_step _ (fun acc fi h => mem_partialMatchStep h hw) _ _ hx

theorem mem_extractTail {label x : String} {conf : ℚ} {already foods : List String}
    (hx : x ∈ foods) (hw : x ≠ "wrap") : x ∈ extractTail label conf already foods := by
  have h2 : x ∈ extractPatternStep label (extractSeparatorStep label foods) :=
    mem_extractPatternStep (mem_extractSeparatorStep hx)
  unfold extractTail
  dsimp only
  split
  · split
    · exact List.mem_append_left _ h2
    · have h5 : x ∈ partialMatchLoop label (mealPatternStep label conf
          (breakfastCompanionStep label conf
            (extractPatternStep label (extractSeparatorStep label foods)
              ++ extractMealComponents label conf))) :=
        mem_partialMatchLoop
          (mem_mealPatternStep (mem_breakfastCompanionStep
            (List.mem_append_left (extractMealComponents label conf) h2))) hw
      split
      · exact mem_addNewAll _ h5
      · exact h5
  · split
    · exact h2
    · have h5 : x ∈ partialMatchLoop label (mealPatternStep label conf
          (breakfastCompanionStep label conf
            (extractPatternStep label (extractSeparatorStep label foods)))) :=
        mem_partialMatchLoop
          (mem_mealPatternStep (mem_breakfastCompanionStep h2)) hw
      split
      · exact mem_addNewAll _ h5
      · exact h5

/-- C3 counterexample: `"bacon"` is a canonical name of the detector's
nutrition table, yet the composite-dish table contains the phrase
`"bacon"`, so the Matcher invokes composite-dish decomposition for a label
that exactly equals a canonical name (the decomposition check runs before
the exact-match rule). -/
theorem composite_priority_counterexample :
    fdHasKey "bacon" = true ∧ complexDishFound "bacon" = true := by
  exact ⟨by decide, by decide⟩

/-- C3 (amended): composite-dish decomposition is checked before the exact
match; only for a label equal to a canonical name that contains no
composite-dish phrase is decomposition skipped and the canonical name
included in the Matcher's output. -/
theorem exact_match_requires_no_composite_phrase (label : String) (conf : ℚ)
    (already : List String)
    (hnorm : pyStrip (pyLower label) = label)
    (hdb : fdHasKey label = true)
    (hcd : complexDishFound label = false) :
    label ∈ extractFoods label conf already := by
  have hfind : complexDishMappings.find? (fun p => strIn p.1 label) = none := by
    unfold complexDishFound at hcd
    exact Option.not_isSome_iff_eq_none.mp (by simp [hcd])
  have hwrap : label ≠ "wrap" := by
    rintro rfl
    have : complexDishFound "wrap" = true := by decide
    simp [this] at hcd
  have hred : extractFoods label conf already = extractTail label conf already [label] := by
    simp [extractFoods, hnorm, hfind, hdb]
  rw [hred]
  exact mem_extractTail (List.mem_singleton.mpr rfl) hwrap

/-- C3 witness: `"salmon"` is canonical, matches no composite phrase, and
is returned by the Matcher. -/
theorem exact_match_requires_no_composite_phrase_witness :
    "salmon" ∈ extractFoods "salmon" 0.9 [] :=
  exact_match_requires_no_composite_phrase "salmon" 0.9 [] (by decide) (by decide) (by decide)

/-- C6: in the consensus loop, provided some candidate survives it, a
candidate is kept exactly when it is in the dominant category, or has no
known category and confidence ≥ 0.60, or is in a minority category and has
confidence ≥ 0.80 (missing confidences default to 0.5). -/
theorem consensus_minority_threshold (foods : List String) (conf : List (String × ℚ))
    (f dom : String)
    (hdom : dominantCategory foods = some dom)
    (hkept : foods.filter (consensusKeep dom conf) ≠ [])
    (hf : f ∈ foods) :
    f ∈ (applyCategoryConsensus foods conf).1 ↔
      (foodCategoryOf f = some dom
       ∨ (foodCategoryOf f = none ∧ pyLookupD conf f 0.5 ≥ 0.60)
       ∨ (foodCategoryOf f ≠ none ∧ foodCategoryOf f ≠ some dom
          ∧ pyLookupD conf f 0.5 ≥ 0.80)) := by
  have hne : foods ≠ [] := List.ne_nil_of_mem hf
  unfold applyCategoryConsensus
  rw [if_neg hne, hdom]
  simp only [if_neg hkept]
  rw [List.mem_filter]
  simp only [hf, true_and]
  unfold consensusKeep
  cases hcat : foodCategoryOf f with
  | none => simp [hcat, decide_eq_true_iff]
  | some c =>
    by_cases hcd : c = dom
    · subst hcd
      simp [hcat]
    · simp [hcat, hcd, decide_eq_true_iff]

/-- C6 witness: on a vegetable-dominant photo a minority-category `"pork"`
at confidence 0.60 is suppressed. -/
theorem consensus_minority_threshold_witness :
    "pork" ∉ (applyCategoryConsensus ["salad", "lettuce", "pork"]
      [("salad", 0.9), ("lettuce", 0.88), ("pork", 0.6)]).1 := by
  have h := consensus_minority_threshold ["salad", "lettuce", "pork"]
    [("salad", 0.9), ("lettuce", 0.88), ("pork", 0.6)] "pork" "vegetable"
    (by decide) (by with_unfolding_all decide) (by decide)
  rw [h]
  rintro (h1 | ⟨h2, _⟩ | ⟨_, h3, h4⟩)
  · exact absurd h1 (by decide)
  · exact absurd h2 (by decide)
  · refine absurd h4 ?_
    have : pyLookupD [("salad", (0.9 : ℚ)), ("lettuce", 0.88), ("pork", 0.6)] "pork" 0.5
        = 0.6 := by with_unfolding_all rfl
    rw [this]
    norm_num

theorem map_fst_eraseP {α : Type} (l : List (String × α)) (k : String) :
    (l.eraseP (fun p => p.1 = k)).map Prod.fst
      = (l.map Prod.fst).eraseP (fun s => s = k) := by
  induction l with
  | nil => rfl
  | cons x xs ih =>
    by_cases hx : x.1 = k
    · simp [List.eraseP_cons, hx]
    · simp [List.eraseP_cons, hx, ih]

theorem not_mem_eraseP_self {l : List String} (h : l.Nodup) (a : String) :
    a ∉ l.eraseP (fun s => s = a) := by
  induction l with
  | nil => simp
  | cons x xs ih =>
    rcases List.nodup_cons.mp h with ⟨hx, hxs⟩
    by_cases hxa : x = a
    · subst hxa
      simpa [List.eraseP_cons] using hx
    · have heq : (x :: xs).eraseP (fun s => s = a) = x :: xs.eraseP (fun s => s = a) := by
        simp [List.eraseP_cons, hxa]
      rw [heq, List.mem_cons]
      rintro (rfl | hmem)
      · exact hxa rfl
      · exact ih hxs hmem

theorem cacheStep_inv {maxSize : ℕ} (hmax : 1 ≤ maxSize) {c : CacheState ℚ}
    (hlen : c.length ≤ maxSize) (hnd : (c.map Prod.fst).Nodup) (op : CacheOp ℚ) :
    (cacheStep maxSize c op).length ≤ maxSize
    ∧ ((cacheStep maxSize c op).map Prod.fst).Nodup := by
  have hsub : ∀ (c' : CacheState ℚ), List.Sublist c' c →
      c'.length ≤ maxSize ∧ (c'.map Prod.fst).Nodup := by
    intro c' hc
    exact ⟨le_trans hc.length_le hlen, hnd.sublist (hc.map Prod.fst)⟩
  have happend : ∀ (k : String) (e : CacheEntry ℚ),
      k ∈ c.map Prod.fst →
      ((c.eraseP (fun p => p.1 = k) ++ [(k, e)]).length ≤ maxSize
        ∧ (((c.eraseP (fun p => p.1 = k)) ++ [(k, e)]).map Prod.fst).Nodup) := by
    intro k e hk
    have hlen1 : (c.eraseP (fun p => p.1 = k)).length = c.length - 1 := by
      rcases List.mem_map.mp hk with ⟨p, hp, hpk⟩
      exact List.length_eraseP_of_mem hp (by simp [hpk])
    have hpos : 1 ≤ c.length := by
      rcases List.mem_map.mp hk with ⟨p, hp, _⟩
      exact List.length_pos.mpr (List.ne_nil_of_mem hp)
    constructor
    · rw [List.length_append, hlen1]
      simp only [List.length_singleton]
      omega
    · rw [List.map_append, map_fst_eraseP]
      apply List.Nodup.append
      · exact hnd.sublist (List.eraseP_sublist _)
      · simp
      · intro a ha hb
        simp only [List.map_cons, List.map_nil, List.mem_singleton] at hb
        subst hb
        exact not_mem_eraseP_self hnd a ha
  have hfresh : ∀ (k : String) (e : CacheEntry ℚ) (c' : CacheState ℚ),
      List.Sublist c' c → k ∉ c.map Prod.fst → c'.length + 1 ≤ maxSize →
      ((c' ++ [(k, e)]).length ≤ maxSize ∧ ((c' ++ [(k, e)]).map Prod.fst).Nodup) := by
    intro k e c' hc hk hl
    constructor
    · simpa using hl
    · rw [List.map_append]
      apply List.Nodup.append
      · exact hnd.sublist (hc.map Prod.fst)
      · simp
      · intro a ha hb
        simp only [List.map_cons, List.map_nil, List.mem_singleton] at hb
        subst hb
        exact hk (List.Sublist.mem ha (hc.map Prod.fst))
  cases op with
  | get k =>
    simp only [cacheStep, cacheGet]
    cases hfind : c.find? (fun p => p.1 = k) with
    | none => exact ⟨hlen, hnd⟩
    | some p =>
      dsimp only
      have hp : p ∈ c := List.mem_of_find?_eq_some hfind
      have hpk : p.1 = k := by
        have := List.find?_some hfind
        simpa using this
      have hk : k ∈ c.map Prod.fst := List.mem_map.mpr ⟨p, hp, hpk⟩
      have := happend k p.2 hk
      constructor
      · have heq : (c.eraseP (fun q => q.1 = k) ++ [p]).length
            = (c.eraseP (fun q => q.1 = k) ++ [(k, p.2)]).length := by
          simp
        rw [heq]
        exact this.1
      · have heq : (c.eraseP (fun q => q.1 = k) ++ [p])
            = c.eraseP (fun q => q.1 = k) ++ [(k, p.2)] := by
          rw [← hpk]
        rw [heq]
        exact this.2
  | set k v now ttl =>
    simp only [cacheStep, cacheSet]
    by_cases hany : (c.any (fun p => p.1 = k)) = true
    · have hk : k ∈ c.map Prod.fst := by
        rcases List.any_eq_true.mp hany with ⟨p, hp, hpk⟩
        exact List.mem_map.mpr ⟨p, hp, by simpa using hpk⟩
      simp only [hany, if_true]
      exact happend k _ hk
    · have hk : k ∉ c.map Prod.fst := by
        intro hmem
        rcases List.mem_map.mp hmem with ⟨p, hp, hpk⟩
        exact hany (List.any_eq_true.mpr ⟨p, hp, by simp [hpk]⟩)
      simp only [hany, if_false, Bool.false_eq_true]
      by_cases hfull : maxSize ≤ c.length
      · rw [if_pos hfull]
        refine hfresh k _ _ (List.drop_sublist 1 c) hk ?_
        have : (c.drop 1).length = c.length - 1 := by simp
        omega
      · rw [if_neg hfull]
        refine hfresh k _ _ (List.Sublist.refl c) hk ?_
        omega
  | del k =>
    simp only [cacheStep, cacheDelete]
    exact hsub _ (List.eraseP_sublist _)
  | cleanup now =>
    simp only [cacheStep, cacheCleanup]
    exact hsub _ (List.filter_sublist _)

/-- C10: starting from the empty cache, every sequence of `SimpleCache`
operations keeps at most `max_size` entries with pairwise-distinct keys; a
`set` of a fresh key on a full cache evicts exactly the front
(least-recently-used) entry; and a `get` hit moves the accessed entry to the
most-recently-used end. -/
theorem simple_cache_lru_invariant (maxSize : ℕ) (hmax : 1 ≤ maxSize)
    (ops : List (CacheOp ℚ)) (c : CacheState ℚ) (k : String) (v now ttl : ℚ) :
    (cacheRun maxSize ops).length ≤ maxSize
    ∧ ((cacheRun maxSize ops).map Prod.fst).Nodup
    ∧ (c.length = maxSize → (c.any (fun p => p.1 = k)) = false →
        cacheSet maxSize c k v now ttl
          = c.drop 1 ++ [(k, { value := v, expires_at := now + ttl })])
    ∧ (∀ p, c.find? (fun q => q.1 = k) = some p →
        (cacheGet c k).2 = c.eraseP (fun q => q.1 = k) ++ [p] ∧ p.1 = k) := by
  have key : ∀ (l : List (CacheOp ℚ)) (c0 : CacheState ℚ),
      c0.length ≤ maxSize → ((c0.map Prod.fst).Nodup) →
      ((l.foldl (cacheStep maxSize) c0).length ≤ maxSize
        ∧ ((l.foldl (cacheStep maxSize) c0).map Prod.fst).Nodup) := by
    intro l
    induction l with
    | nil => intro c0 h1 h2; exact ⟨h1, h2⟩
    | cons op rest ih =>
      intro c0 h1 h2
      have := cacheStep_inv hmax h1 h2 op
      exact ih _ this.1 this.2
  refine ⟨(key ops [] (by simp) (by simp)).1, (key ops [] (by simp) (by simp)).2, ?_, ?_⟩
  · intro hlen hany
    unfold cacheSet
    simp only [hany, if_false, Bool.false_eq_true]
    rw [if_pos (le_of_eq hlen.symm)]
  · intro p hfind
    have hpk : p.1 = k := by
      have := List.find?_some hfind
      simpa using this
    unfold cacheGet
    rw [hfind]
    exact ⟨rfl, hpk⟩

/-- C10 witness: with capacity 1, setting a second key evicts the first;
the invariant holds after the two sets. -/
theorem simple_cache_lru_invariant_witness :
    (cacheRun 1 [CacheOp.set "a" (1 : ℚ) 0 300, CacheOp.set "b" 2 0 300]).length ≤ 1
    ∧ cacheSet 1 [("a", { value := (1 : ℚ), expires_at := 300 })] "b" 2 0 300
        = [("a", ({ value := (1 : ℚ), expires_at := 300 } : CacheEntry ℚ))].drop 1
            ++ [("b", { value := 2, expires_at := 0 + 300 })] := by
  have h := simple_cache_lru_invariant 1 (by norm_num)
    [CacheOp.set "a" (1 : ℚ) 0 300, CacheOp.set "b" 2 0 300]
    [("a", { value := (1 : ℚ), expires_at := 300 })] "b" 2 0 300
  exact ⟨h.1, h.2.2.1 rfl (by decide)⟩

end ProteinTrack
